import Mathlib

/-!
Verification of the ClawZenMux smart-routing proxy.

This file gives a shallow embedding of the routing core of the repository:

* `src/src/router/rules.ts`   — the weighted-scoring classifier (`classifyByRules`),
* `src/src/router/selector.ts` — tier → model selection with cost estimates (`selectModel`),
* `src/src/router/index.ts`   — the `route` entry point with its overrides,
* `src/src/models.ts` (proxy section) — the forced-tier directive parsing/stripping
  and the routing stage of `proxyRequest`,
* `src/unnamed/part_000`      — the `RequestDeduplicator`,
* `src/src/proxy.ts` / `src/src/models.ts` — the per-request dedup/forward/relay logic
  of `proxyRequest`, modelled as a sequential state-passing function.

Modelling conventions:
* JavaScript numbers used for scores, weights, boundaries and prices are modelled
  as `ℚ`; `Math.exp`-based confidence calibration lives in `ℝ`.
* JavaScript strings are Lean `String`s; all character-level operations
  (`toLowerCase`, `includes`, the regular expressions) are defined over `.data`
  (`List Char`).  `toLowerCase` is modelled with `Char.toLower` (ASCII case
  mapping), which agrees with JavaScript on the ASCII inputs considered here.
* `string.length` (UTF-16 code units) is modelled as `String.length`
  (code points); the two agree on all inputs examined in theorems below.
* Time (`Date.now()`) is threaded explicitly as a `Nat` of milliseconds.
-/

namespace ClawZenMux

/-! ## Character/string primitives (JS string operations over `List Char`) -/

/-- JS `String.prototype.toLowerCase` (ASCII range, as used by the keyword lists). -/
def lowerString (s : String) : String :=
  String.mk (s.data.map Char.toLower)

/-- Case-insensitive prefix test: `ciIsPrefixOf pat s` holds when `pat` matches the
start of `s` up to `Char.toLower`. -/
def ciIsPrefixOf : List Char → List Char → Bool
  | [], _ => true
  | _ :: _, [] => false
  | p :: ps, c :: cs => (c.toLower = p.toLower) && ciIsPrefixOf ps cs

/-- JS `hay.includes(needle)`: exact substring containment. -/
def strContains (hay needle : String) : Bool :=
  (List.range (hay.data.length + 1)).any fun i => needle.data.isPrefixOf (hay.data.drop i)

/-- JS regex `\w` character class: `[A-Za-z0-9_]`. -/
def isWordChar (c : Char) : Bool := c.isAlphanum || c = '_'

/-- JS regex `\s` whitespace class (the members relevant to the inputs considered). -/
def isJsWhitespace (c : Char) : Bool :=
  c = ' ' || c = '\t' || c = '\n' || c = '\r' || c = '\x0b' || c = '\x0c' ||
  c = '\u00A0' || c = '\u2028' || c = '\u2029' || c = '\uFEFF'

/-- JS line terminators, which `.` (without the `s` flag) never matches. -/
def isLineTerminator (c : Char) : Bool :=
  c = '\n' || c = '\r' || c = '\u2028' || c = '\u2029'

/-- Whole-word, case-insensitive occurrence of `w` at index `i` of `s`: the JS
pattern `\bw\b` anchored at `i` (all words used consist of word characters, so the
boundary reduces to the neighbouring character not being a word character). -/
def wordAtCi (s : List Char) (i : Nat) (w : List Char) : Bool :=
  (decide (i = 0) || !(isWordChar (s.getD (i - 1) ' '))) &&
  ciIsPrefixOf w (s.drop i) &&
  (decide (s.length ≤ i + w.length) || !(isWordChar (s.getD (i + w.length) ' ')))

/-- Test for the JS pattern `\b(w₁)\b.*\b(w₂)\b` (case-insensitive, `.` not
matching line terminators) with `w₁` drawn from `ws₁` and `w₂` from `ws₂`. -/
def wordThenWordTest (s : List Char) (ws₁ ws₂ : List (List Char)) : Bool :=
  (List.range (s.length + 1)).any fun i =>
    ws₁.any fun w₁ =>
      wordAtCi s i w₁ &&
      ((List.range (s.length + 1)).any fun j =>
        ws₂.any fun w₂ =>
          decide (i + w₁.length ≤ j) && wordAtCi s j w₂ &&
          ((s.drop (i + w₁.length)).take (j - (i + w₁.length))).all
            (fun c => !(isLineTerminator c)))

/-! ## Router data model (`src/src/router/types.ts`) -/

/-- The four ordered complexity tiers. -/
inductive Tier where
  | SIMPLE
  | MEDIUM
  | COMPLEX
  | REASONING
deriving DecidableEq, Repr

/-- Printed tier name, as interpolated into reasoning strings. -/
def tierName : Tier → String
  | .SIMPLE => "SIMPLE"
  | .MEDIUM => "MEDIUM"
  | .COMPLEX => "COMPLEX"
  | .REASONING => "REASONING"

/-- The `tierRank` table used for the structured-output minimum-tier upgrade. -/
def tierRank : Tier → Nat
  | .SIMPLE => 0
  | .MEDIUM => 1
  | .COMPLEX => 2
  | .REASONING => 3

/-- Classification method tag of a `RoutingDecision`. -/
inductive RouteMethod where
  | rules
  | llm
deriving DecidableEq, Repr

structure TokenCountThresholds where
  simple : Nat
  complex : Nat
deriving DecidableEq, Repr

structure TierBoundaries where
  simpleMedium : ℚ
  mediumComplex : ℚ
  complexReasoning : ℚ
deriving DecidableEq, Repr

/-- `ScoringConfig` from `src/src/router/types.ts`. -/
structure ScoringConfig where
  tokenCountThresholds : TokenCountThresholds
  codeKeywords : List String
  reasoningKeywords : List String
  simpleKeywords : List String
  technicalKeywords : List String
  creativeKeywords : List String
  imperativeVerbs : List String
  constraintIndicators : List String
  outputFormatKeywords : List String
  referenceKeywords : List String
  negationKeywords : List String
  domainSpecificKeywords : List String
  dimensionWeights : List (String × ℚ)
  tierBoundaries : TierBoundaries
  confidenceSteepness : ℚ
  confidenceThreshold : ℚ
deriving DecidableEq, Repr

/-- `ScoringResult`: the classifier output (`tier = none` means ambiguous). -/
structure ScoringResult where
  score : ℚ
  tier : Option Tier
  confidence : ℝ
  signals : List String

/-- `TierConfig`: primary model id plus fallbacks for one tier. -/
structure TierConfig where
  primary : String
  fallback : List String
deriving DecidableEq, Repr

/-- `ModelPricing` (`src/src/router/selector.ts`): USD per 1M tokens. -/
structure ModelPricing where
  inputPrice : ℚ
  outputPrice : ℚ
deriving DecidableEq, Repr

/-- `RoutingDecision` as produced by `selectModel`. -/
structure RoutingDecision where
  model : String
  tier : Tier
  confidence : ℝ
  method : RouteMethod
  reasoning : String
  costEstimate : ℚ
  baselineCost : ℚ
  savings : ℚ

structure OverridesConfig where
  maxTokensForceComplex : Nat
  structuredOutputMinTier : Tier
  ambiguousDefaultTier : Tier
deriving DecidableEq, Repr

/-- The parts of `RoutingConfig` consumed by `route`/`classifyByRules` (the
`version` string and the AI-classifier block are not used by the routed code paths
modelled here). -/
structure RoutingConfig where
  scoring : ScoringConfig
  tiers : Tier → TierConfig
  overrides : OverridesConfig

/-- `RouterOptions` (`src/src/router/index.ts`); the JS `Map` of model pricing is
an association list keyed by model id. -/
structure RouterOptions where
  config : RoutingConfig
  modelPricing : List (String × ModelPricing)

/-! ## Dimension scorers (`src/src/router/rules.ts`) -/

/-- One scored dimension. -/
structure DimensionScore where
  name : String
  score : ℚ
  signal : Option String
deriving DecidableEq, Repr

/-- `scoreTokenCount`: below the simple threshold → −1, above the complex
threshold → +1, else 0. -/
def scoreTokenCount (estimatedTokens : Nat) (thresholds : TokenCountThresholds) :
    DimensionScore :=
  if estimatedTokens < thresholds.simple then
    { name := "tokenCount", score := -1,
      signal := some ("short (" ++ toString estimatedTokens ++ " tokens)") }
  else if thresholds.complex < estimatedTokens then
    { name := "tokenCount", score := 1,
      signal := some ("long (" ++ toString estimatedTokens ++ " tokens)") }
  else
    { name := "tokenCount", score := 0, signal := none }

structure KwThresholds where
  low : Nat
  high : Nat
deriving DecidableEq, Repr

structure KwScores where
  onNone : ℚ
  onLow : ℚ
  onHigh : ℚ
deriving DecidableEq, Repr

/-- `scoreKeywordMatch`: counts keywords occurring as substrings of `text` and maps
the count through a none/low/high threshold triple. -/
def scoreKeywordMatch (text : String) (keywords : List String) (name signalLabel : String)
    (thresholds : KwThresholds) (scores : KwScores) : DimensionScore :=
  let hits := keywords.filter fun kw => strContains text (lowerString kw)
  if thresholds.high ≤ hits.length then
    { name := name, score := scores.onHigh,
      signal := some (signalLabel ++ " (" ++ String.intercalate ", " (hits.take 3) ++ ")") }
  else if thresholds.low ≤ hits.length then
    { name := name, score := scores.onLow,
      signal := some (signalLabel ++ " (" ++ String.intercalate ", " (hits.take 3) ++ ")") }
  else
    { name := name, score := scores.onNone, signal := none }

/-- Test for the JS regex `/first.*then/i` (`.` does not cross line terminators). -/
def firstThenTest (s : List Char) : Bool :=
  (List.range (s.length + 1)).any fun i =>
    ciIsPrefixOf "first".data (s.drop i) &&
    ((List.range (s.length + 1)).any fun j =>
      decide (i + 5 ≤ j) && ciIsPrefixOf "then".data (s.drop j) &&
      ((s.drop (i + 5)).take (j - (i + 5))).all (fun c => !(isLineTerminator c)))

/-- Test for the JS regex `/step \d/i`. -/
def stepDigitTest (s : List Char) : Bool :=
  (List.range (s.length + 1)).any fun i =>
    ciIsPrefixOf "step ".data (s.drop i) &&
    (match s.drop (i + 5) with
     | c :: _ => c.isDigit
     | [] => false)

/-- Test for the JS regex `/\d\.\s/`. -/
def digitDotSpaceTest (s : List Char) : Bool :=
  (List.range s.length).any fun i =>
    match s.drop i with
    | a :: b :: c :: _ => a.isDigit && b = '.' && isJsWhitespace c
    | _ => false

/-- `scoreMultiStep`: fixed bonus when any of the three multi-step patterns hits. -/
def scoreMultiStep (text : String) : DimensionScore :=
  if firstThenTest text.data || stepDigitTest text.data || digitDotSpaceTest text.data then
    { name := "multiStepPatterns", score := 1/2, signal := some "multi-step" }
  else
    { name := "multiStepPatterns", score := 0, signal := none }

/-- `scoreQuestionComplexity`: fixed bonus when more than three `?` appear. -/
def scoreQuestionComplexity (prompt : String) : DimensionScore :=
  let count := (prompt.data.filter (fun c => c = '?')).length
  if 3 < count then
    { name := "questionComplexity", score := 1/2,
      signal := some (toString count ++ " questions") }
  else
    { name := "questionComplexity", score := 0, signal := none }

/-- The 14 dimension scores of `classifyByRules`, in source order.  `text` is the
lowercased system+user text, `userText` the lowercased user prompt, `prompt` the
raw user prompt (used only by the question-mark count). -/
def scoreDimensions (text userText prompt : String) (estimatedTokens : Nat)
    (config : ScoringConfig) : List DimensionScore :=
  [ scoreTokenCount estimatedTokens config.tokenCountThresholds,
    scoreKeywordMatch text config.codeKeywords "codePresence" "code"
      ⟨1, 2⟩ ⟨0, 1/2, 1⟩,
    scoreKeywordMatch userText config.reasoningKeywords "reasoningMarkers" "reasoning"
      ⟨1, 2⟩ ⟨0, 7/10, 1⟩,
    scoreKeywordMatch text config.technicalKeywords "technicalTerms" "technical"
      ⟨2, 4⟩ ⟨0, 1/2, 1⟩,
    scoreKeywordMatch text config.creativeKeywords "creativeMarkers" "creative"
      ⟨1, 2⟩ ⟨0, 1/2, 7/10⟩,
    scoreKeywordMatch text config.simpleKeywords "simpleIndicators" "simple"
      ⟨1, 2⟩ ⟨0, -1, -1⟩,
    scoreMultiStep text,
    scoreQuestionComplexity prompt,
    scoreKeywordMatch text config.imperativeVerbs "imperativeVerbs" "imperative"
      ⟨1, 2⟩ ⟨0, 3/10, 1/2⟩,
    scoreKeywordMatch text config.constraintIndicators "constraintCount" "constraints"
      ⟨1, 3⟩ ⟨0, 3/10, 7/10⟩,
    scoreKeywordMatch text config.outputFormatKeywords "outputFormat" "format"
      ⟨1, 2⟩ ⟨0, 2/5, 7/10⟩,
    scoreKeywordMatch text config.referenceKeywords "referenceComplexity" "references"
      ⟨1, 2⟩ ⟨0, 3/10, 1/2⟩,
    scoreKeywordMatch text config.negationKeywords "negationComplexity" "negation"
      ⟨2, 3⟩ ⟨0, 3/10, 1/2⟩,
    scoreKeywordMatch text config.domainSpecificKeywords "domainSpecificity" "domain-specific"
      ⟨1, 2⟩ ⟨0, 1/2, 4/5⟩ ]

/-- Weight lookup `weights[d.name] ?? 0`. -/
def lookupWeight (weights : List (String × ℚ)) (name : String) : ℚ :=
  match weights.lookup name with
  | some w => w
  | none => 0

/-- The weighted-sum aggregation loop of `classifyByRules`. -/
def weightedScoreOf (dims : List DimensionScore) (weights : List (String × ℚ)) : ℚ :=
  dims.foldl (fun acc d => acc + d.score * lookupWeight weights d.name) 0

/-- Sigmoid confidence calibration (`calibrateConfidence`). -/
noncomputable def calibrateConfidence (distance steepness : ℚ) : ℝ :=
  1 / (1 + Real.exp (-((steepness * distance : ℚ) : ℝ)))

/-- The boundary-mapping block of `classifyByRules`: partitions the score axis by
the three ordered boundaries and records the distance to the nearest boundary
within the assigned range. -/
def tierAndDistance (weightedScore : ℚ) (b : TierBoundaries) : Tier × ℚ :=
  if weightedScore < b.simpleMedium then
    (.SIMPLE, b.simpleMedium - weightedScore)
  else if weightedScore < b.mediumComplex then
    (.MEDIUM, min (weightedScore - b.simpleMedium) (b.mediumComplex - weightedScore))
  else if weightedScore < b.complexReasoning then
    (.COMPLEX, min (weightedScore - b.mediumComplex) (b.complexReasoning - weightedScore))
  else
    (.REASONING, weightedScore - b.complexReasoning)

/-- The lowercased system+user text `text` of `classifyByRules`. -/
def classifierText (prompt : String) (systemPrompt : Option String) : String :=
  lowerString ((systemPrompt.getD "") ++ " " ++ prompt)

/-- The weighted aggregate score computed by `classifyByRules` over the 14
dimension scores. -/
def classifierScore (prompt : String) (systemPrompt : Option String)
    (estimatedTokens : Nat) (config : ScoringConfig) : ℚ :=
  weightedScoreOf
    (scoreDimensions (classifierText prompt systemPrompt) (lowerString prompt) prompt
      estimatedTokens config)
    config.dimensionWeights

/-- The signal strings collected by `classifyByRules` (`dimensions.filter(...).map(...)`). -/
def classifierSignals (prompt : String) (systemPrompt : Option String)
    (estimatedTokens : Nat) (config : ScoringConfig) : List String :=
  (scoreDimensions (classifierText prompt systemPrompt) (lowerString prompt) prompt
    estimatedTokens config).filterMap fun d => d.signal

/-- The count of reasoning keywords occurring in the lowercased USER prompt only
(`reasoningMatches.length` in `classifyByRules`). -/
def reasoningHitCount (prompt : String) (config : ScoringConfig) : Nat :=
  (config.reasoningKeywords.filter fun kw =>
    strContains (lowerString prompt) (lowerString kw)).length

/-- `classifyByRules` (`src/src/router/rules.ts`): weighted 14-dimension scoring,
the ≥2-reasoning-keyword override (forcing REASONING at confidence
`max(confidence, 0.85)` with the score clamped to ≥0.3 for the calibration), then
boundary mapping, sigmoid calibration and the ambiguity threshold. -/
noncomputable def classifyByRules (prompt : String) (systemPrompt : Option String)
    (estimatedTokens : Nat) (config : ScoringConfig) : ScoringResult :=
  if 2 ≤ reasoningHitCount prompt config then
    { score := classifierScore prompt systemPrompt estimatedTokens config,
      tier := some .REASONING,
      confidence := max
        (calibrateConfidence
          (max (classifierScore prompt systemPrompt estimatedTokens config) (3/10))
          config.confidenceSteepness) 0.85,
      signals := classifierSignals prompt systemPrompt estimatedTokens config }
  else if calibrateConfidence
      (tierAndDistance (classifierScore prompt systemPrompt estimatedTokens config)
        config.tierBoundaries).2 config.confidenceSteepness <
      (config.confidenceThreshold : ℝ) then
    { score := classifierScore prompt systemPrompt estimatedTokens config,
      tier := none,
      confidence := calibrateConfidence
        (tierAndDistance (classifierScore prompt systemPrompt estimatedTokens config)
          config.tierBoundaries).2 config.confidenceSteepness,
      signals := classifierSignals prompt systemPrompt estimatedTokens config }
  else
    { score := classifierScore prompt systemPrompt estimatedTokens config,
      tier := some (tierAndDistance (classifierScore prompt systemPrompt estimatedTokens config)
        config.tierBoundaries).1,
      confidence := calibrateConfidence
        (tierAndDistance (classifierScore prompt systemPrompt estimatedTokens config)
          config.tierBoundaries).2 config.confidenceSteepness,
      signals := classifierSignals prompt systemPrompt estimatedTokens config }

/-! ## Tier selector (`src/src/router/selector.ts`) -/

/-- `selectModel`: resolves the tier's primary model and computes cost estimate,
baseline cost (fixed premium reference model) and savings. -/
def selectModel (tier : Tier) (confidence : ℝ) (method : RouteMethod) (reasoning : String)
    (tierConfigs : Tier → TierConfig) (modelPricing : List (String × ModelPricing))
    (estimatedInputTokens maxOutputTokens : Nat) : RoutingDecision :=
  let model := (tierConfigs tier).primary
  let pricing := modelPricing.lookup model
  let inputCost : ℚ :=
    match pricing with
    | some p => (estimatedInputTokens : ℚ) / 1000000 * p.inputPrice
    | none => 0
  let outputCost : ℚ :=
    match pricing with
    | some p => (maxOutputTokens : ℚ) / 1000000 * p.outputPrice
    | none => 0
  let costEstimate := inputCost + outputCost
  let opusPricing := modelPricing.lookup "anthropic/claude-opus-4.6"
  let baselineInput : ℚ :=
    match opusPricing with
    | some p => (estimatedInputTokens : ℚ) / 1000000 * p.inputPrice
    | none => 0
  let baselineOutput : ℚ :=
    match opusPricing with
    | some p => (maxOutputTokens : ℚ) / 1000000 * p.outputPrice
    | none => 0
  let baselineCost := baselineInput + baselineOutput
  let savings : ℚ :=
    if 0 < baselineCost then max 0 ((baselineCost - costEstimate) / baselineCost) else 0
  { model := model, tier := tier, confidence := confidence, method := method,
    reasoning := reasoning, costEstimate := costEstimate, baselineCost := baselineCost,
    savings := savings }


/-! ## Route entry point (`src/src/router/index.ts`) -/

/-- Word groups of the structured-output regex in `route`. -/
def formatWords : List (List Char) :=
  ["json".data, "yaml".data, "xml".data, "csv".data]

/-- Word groups of the structured-output regex in `route`. -/
def structuredVerbWords : List (List Char) :=
  ["format".data, "output".data, "respond".data, "return".data]

/-- The structured-output heuristic of `route`: the JS regex
`\b(json|yaml|xml|csv)\b.*\b(format|output|respond|return)\b|\b(format|output|respond|return)\b.*\b(json|yaml|xml|csv)\b`
with the `i` flag, tested against the user prompt. -/
def hasStructuredOutputTest (prompt : String) : Bool :=
  wordThenWordTest prompt.data formatWords structuredVerbWords ||
  wordThenWordTest prompt.data structuredVerbWords formatWords

/-- `route` (`src/src/router/index.ts`, sync path): large-context override, then
rule-based classification with ambiguous default, then the structured-output
minimum-tier upgrade, then model selection. -/
noncomputable def route (prompt : String) (systemPrompt : Option String)
    (maxOutputTokens : Nat) (options : RouterOptions) : RoutingDecision :=
  let config := options.config
  let fullText := (systemPrompt.getD "") ++ " " ++ prompt
  let totalTokens := (fullText.length + 3) / 4
  let promptTokens := (prompt.length + 3) / 4
  if config.overrides.maxTokensForceComplex < totalTokens then
    selectModel .COMPLEX (0.95 : ℝ) .rules
      ("Input exceeds " ++ toString config.overrides.maxTokensForceComplex ++ " tokens")
      config.tiers options.modelPricing totalTokens maxOutputTokens
  else
    let hasStructuredOutput := hasStructuredOutputTest prompt
    let ruleResult := classifyByRules prompt systemPrompt promptTokens config.scoring
    let base := "score=" ++ toString ruleResult.score ++ " | " ++
      String.intercalate ", " ruleResult.signals
    let tcr : Tier × ℝ × String :=
      match ruleResult.tier with
      | some t => (t, ruleResult.confidence, base)
      | none => (config.overrides.ambiguousDefaultTier, (0.5 : ℝ),
          base ++ " | ambiguous -> default: " ++ tierName config.overrides.ambiguousDefaultTier)
    let upgraded : Tier × String :=
      if hasStructuredOutput = true ∧
          tierRank tcr.1 < tierRank config.overrides.structuredOutputMinTier then
        (config.overrides.structuredOutputMinTier,
         tcr.2.2 ++ " | upgraded to " ++ tierName config.overrides.structuredOutputMinTier ++
           " (structured output)")
      else (tcr.1, tcr.2.2)
    selectModel upgraded.1 tcr.2.1 .rules upgraded.2
      config.tiers options.modelPricing totalTokens maxOutputTokens

/-! ## General lemmas -/

lemma mem_of_lookup_eq_some {α β : Type} [BEq α] [LawfulBEq α] {l : List (α × β)}
    {k : α} {v : β} (h : l.lookup k = some v) : (k, v) ∈ l := by
  induction l with
  | nil => simp [List.lookup] at h
  | cons p rest ih =>
    obtain ⟨a, b⟩ := p
    rw [List.lookup] at h
    by_cases hak : k == a
    · rw [hak] at h
      obtain rfl : b = v := by simpa using h
      obtain rfl : k = a := by simpa using hak
      exact List.mem_cons_self _ _
    · rw [Bool.eq_false_iff.mpr hak] at h
      exact List.mem_cons_of_mem _ (ih h)

lemma two_le_filter_length {α : Type} [DecidableEq α] {p : α → Bool} {l : List α} {a b : α}
    (ha : a ∈ l) (hb : b ∈ l) (hab : a ≠ b) (hpa : p a = true) (hpb : p b = true) :
    2 ≤ (l.filter p).length := by
  have ha' : a ∈ (l.filter p).toFinset := by
    simp [List.mem_filter, ha, hpa]
  have hb' : b ∈ (l.filter p).toFinset := by
    simp [List.mem_filter, hb, hpb]
  have hcard : 1 < (l.filter p).toFinset.card :=
    Finset.one_lt_card.mpr ⟨a, ha', b, hb', hab⟩
  exact hcard.trans_le (l.filter p).toFinset_card_le

lemma calibrateConfidence_mem {d s : ℚ} (hd : 0 ≤ d) (hs : 0 < s) :
    (1/2 : ℝ) ≤ calibrateConfidence d s ∧ calibrateConfidence d s < 1 := by
  unfold calibrateConfidence
  have hx : (0 : ℝ) ≤ ((s * d : ℚ) : ℝ) := by
    have h0 : (0 : ℚ) ≤ s * d := mul_nonneg hs.le hd
    exact_mod_cast h0
  have hle : Real.exp (-((s * d : ℚ) : ℝ)) ≤ 1 := Real.exp_le_one_iff.mpr (by linarith)
  have hpos : 0 < Real.exp (-((s * d : ℚ) : ℝ)) := Real.exp_pos _
  constructor
  · rw [div_le_div_iff₀ (by norm_num) (by linarith)]
    linarith
  · rw [div_lt_one (by linarith)]
    linarith

lemma tierAndDistance_snd_nonneg (w : ℚ) (b : TierBoundaries) :
    0 ≤ (tierAndDistance w b).2 := by
  unfold tierAndDistance
  split_ifs with h₁ h₂ h₃
  · simp only []
    linarith
  · exact le_min (by linarith) (by linarith)
  · exact le_min (by linarith) (by linarith)
  · simp only []
    linarith

lemma weightedScoreOf_nil (dims : List DimensionScore) : weightedScoreOf dims [] = 0 := by
  unfold weightedScoreOf
  have h : ∀ acc : ℚ,
      dims.foldl (fun acc d => acc + d.score * lookupWeight [] d.name) acc = acc := by
    induction dims with
    | nil => intro acc; rfl
    | cons d rest ih =>
      intro acc
      have hw : lookupWeight [] d.name = 0 := rfl
      simp only [List.foldl, hw, mul_zero, add_zero]
      exact ih acc
  exact h 0

lemma classifyByRules_override_eq (prompt : String) (systemPrompt : Option String)
    (estimatedTokens : Nat) (config : ScoringConfig)
    (h : 2 ≤ reasoningHitCount prompt config) :
    classifyByRules prompt systemPrompt estimatedTokens config =
      { score := classifierScore prompt systemPrompt estimatedTokens config,
        tier := some .REASONING,
        confidence := max
          (calibrateConfidence
            (max (classifierScore prompt systemPrompt estimatedTokens config) (3/10))
            config.confidenceSteepness) 0.85,
        signals := classifierSignals prompt systemPrompt estimatedTokens config } := by
  unfold classifyByRules
  rw [if_pos h]

/-! ## Concrete configurations used to instantiate theorems -/

/-- A small concrete scoring configuration (well-formed defaults). -/
def testScoring : ScoringConfig :=
  { tokenCountThresholds := ⟨50, 500⟩
    codeKeywords := ["function", "class"]
    reasoningKeywords := ["prove", "theorem"]
    simpleKeywords := ["hello"]
    technicalKeywords := ["algorithm"]
    creativeKeywords := ["story"]
    imperativeVerbs := ["build"]
    constraintIndicators := ["at most"]
    outputFormatKeywords := ["json"]
    referenceKeywords := ["above"]
    negationKeywords := ["avoid"]
    domainSpecificKeywords := ["quantum"]
    dimensionWeights := [("tokenCount", 2/25), ("codePresence", 3/20),
      ("reasoningMarkers", 9/50), ("simpleIndicators", 3/25)]
    tierBoundaries := ⟨0, 3/20, 1/4⟩
    confidenceSteepness := 12
    confidenceThreshold := 3/5 }

/-- A scoring configuration whose ambiguity threshold exceeds the 0.85 floor of
the reasoning override (all dimension weights zero). -/
def cexScoring : ScoringConfig :=
  { tokenCountThresholds := ⟨0, 1000000⟩
    codeKeywords := []
    reasoningKeywords := ["prove", "theorem"]
    simpleKeywords := []
    technicalKeywords := []
    creativeKeywords := []
    imperativeVerbs := []
    constraintIndicators := []
    outputFormatKeywords := []
    referenceKeywords := []
    negationKeywords := []
    domainSpecificKeywords := []
    dimensionWeights := []
    tierBoundaries := ⟨0, 3/20, 1/4⟩
    confidenceSteepness := 1
    confidenceThreshold := 9/10 }

/-- Tier → model table mirroring the shipped defaults. -/
def testTiers : Tier → TierConfig
  | .SIMPLE => ⟨"deepseek/deepseek-v3.2", ["google/gemini-2.5-flash"]⟩
  | .MEDIUM => ⟨"google/gemini-3-flash-preview", ["deepseek/deepseek-v3.2"]⟩
  | .COMPLEX => ⟨"anthropic/claude-sonnet-4.5", ["anthropic/claude-sonnet-4", "openai/gpt-4o"]⟩
  | .REASONING => ⟨"deepseek/deepseek-v3.2-thinking", ["openai/gpt-5.2"]⟩

/-- A small concrete pricing map including the premium baseline model. -/
def testPricing : List (String × ModelPricing) :=
  [("anthropic/claude-sonnet-4.5", ⟨3, 15⟩),
   ("anthropic/claude-opus-4.6", ⟨5, 25⟩),
   ("deepseek/deepseek-v3.2", ⟨7/25, 43/100⟩)]

/-- Router options with a tiny large-context ceiling (1 token), so that the
override is exercised by short concrete prompts. -/
def smallCeilingOptions : RouterOptions :=
  { config :=
      { scoring := testScoring
        tiers := testTiers
        overrides := ⟨1, .MEDIUM, .MEDIUM⟩ }
    modelPricing := testPricing }

/-! ## C3 — reasoning-keyword override forces REASONING at confidence ≥ 0.85 -/

/-- C3: whenever at least two distinct reasoning keywords of the configuration
occur (case-insensitively) as substrings of the user prompt, `classifyByRules`
returns tier REASONING with confidence ≥ 0.85, regardless of the weighted score
and of the tier-boundary mapping. -/
theorem classifyByRules_reasoning_override (prompt : String) (systemPrompt : Option String)
    (estimatedTokens : Nat) (config : ScoringConfig) (kw₁ kw₂ : String)
    (h₁ : kw₁ ∈ config.reasoningKeywords) (h₂ : kw₂ ∈ config.reasoningKeywords)
    (hne : kw₁ ≠ kw₂)
    (hc₁ : strContains (lowerString prompt) (lowerString kw₁) = true)
    (hc₂ : strContains (lowerString prompt) (lowerString kw₂) = true) :
    (classifyByRules prompt systemPrompt estimatedTokens config).tier = some Tier.REASONING ∧
    (0.85 : ℝ) ≤ (classifyByRules prompt systemPrompt estimatedTokens config).confidence := by
  have hlen : 2 ≤ reasoningHitCount prompt config :=
    two_le_filter_length h₁ h₂ hne hc₁ hc₂
  rw [classifyByRules_override_eq prompt systemPrompt estimatedTokens config hlen]
  exact ⟨rfl, le_max_right _ _⟩

/-- Witness for C3 at a concrete prompt and configuration. -/
theorem classifyByRules_reasoning_override_witness :
    ("prove" ∈ testScoring.reasoningKeywords ∧ "theorem" ∈ testScoring.reasoningKeywords ∧
      ("prove" : String) ≠ "theorem" ∧
      strContains (lowerString "prove the theorem") (lowerString "prove") = true ∧
      strContains (lowerString "prove the theorem") (lowerString "theorem") = true) ∧
    ((classifyByRules "prove the theorem" none 4 testScoring).tier = some Tier.REASONING ∧
      (0.85 : ℝ) ≤ (classifyByRules "prove the theorem" none 4 testScoring).confidence) :=
  ⟨⟨by decide, by decide, by decide, by decide, by decide⟩,
   classifyByRules_reasoning_override "prove the theorem" none 4 testScoring "prove" "theorem"
     (by decide) (by decide) (by decide) (by decide) (by decide)⟩

/-! ## C10 — calibrated confidence always lies in [0.5, 1) -/

/-- C10: for positive sigmoid steepness and ordered tier boundaries, the
confidence returned by `classifyByRules` lies in [0.5, 1): the distance to the
nearest boundary within the assigned range is non-negative, so the sigmoid never
drops below 0.5, and the reasoning-override branch yields at least 0.85. -/
theorem classifyByRules_confidence_range (prompt : String) (systemPrompt : Option String)
    (estimatedTokens : Nat) (config : ScoringConfig)
    (hs : 0 < config.confidenceSteepness)
    (hb₁ : config.tierBoundaries.simpleMedium ≤ config.tierBoundaries.mediumComplex)
    (hb₂ : config.tierBoundaries.mediumComplex ≤ config.tierBoundaries.complexReasoning) :
    (1/2 : ℝ) ≤ (classifyByRules prompt systemPrompt estimatedTokens config).confidence ∧
    (classifyByRules prompt systemPrompt estimatedTokens config).confidence < 1 := by
  unfold classifyByRules
  split_ifs with h₁ h₂
  · have hd : (0 : ℚ) ≤ max (classifierScore prompt systemPrompt estimatedTokens config) (3/10) :=
      le_trans (by norm_num) (le_max_right _ _)
    have hcal := calibrateConfidence_mem hd hs
    refine ⟨le_trans (by norm_num) (le_max_right _ _), ?_⟩
    exact max_lt hcal.2 (by norm_num)
  · exact calibrateConfidence_mem (tierAndDistance_snd_nonneg _ _) hs
  · exact calibrateConfidence_mem (tierAndDistance_snd_nonneg _ _) hs

/-- Witness for C10 at a concrete input. -/
theorem classifyByRules_confidence_range_witness :
    (0 < testScoring.confidenceSteepness ∧
      testScoring.tierBoundaries.simpleMedium ≤ testScoring.tierBoundaries.mediumComplex ∧
      testScoring.tierBoundaries.mediumComplex ≤ testScoring.tierBoundaries.complexReasoning) ∧
    ((1/2 : ℝ) ≤ (classifyByRules "hello there" none 3 testScoring).confidence ∧
      (classifyByRules "hello there" none 3 testScoring).confidence < 1) :=
  ⟨⟨by norm_num [testScoring], by norm_num [testScoring], by norm_num [testScoring]⟩,
   classifyByRules_confidence_range "hello there" none 3 testScoring
     (by norm_num [testScoring]) (by norm_num [testScoring]) (by norm_num [testScoring])⟩

/-! ## C8 — ambiguity (tier = none) versus the confidence threshold -/

/-- C8 (amended): provided the configured ambiguity threshold does not exceed the
0.85 floor of the reasoning override (true of the shipped defaults), the result of
`classifyByRules` has `tier = none` exactly when its confidence is below the
threshold. -/
theorem classifyByRules_ambiguous_iff (prompt : String) (systemPrompt : Option String)
    (estimatedTokens : Nat) (config : ScoringConfig)
    (hthr : config.confidenceThreshold ≤ 17/20) :
    ((classifyByRules prompt systemPrompt estimatedTokens config).tier = none ↔
      (classifyByRules prompt systemPrompt estimatedTokens config).confidence <
        (config.confidenceThreshold : ℝ)) := by
  have hcast : ((config.confidenceThreshold : ℚ) : ℝ) ≤ (0.85 : ℝ) := by
    have h1 : ((config.confidenceThreshold : ℚ) : ℝ) ≤ ((17/20 : ℚ) : ℝ) := by
      exact_mod_cast hthr
    have h2 : ((17/20 : ℚ) : ℝ) = (0.85 : ℝ) := by norm_num
    rw [h2] at h1
    exact h1
  unfold classifyByRules
  split_ifs with h₁ h₂
  · constructor
    · intro hcontra
      exact absurd hcontra (by simp)
    · intro hlt
      exact absurd (lt_of_le_of_lt (le_trans hcast (le_max_right _ _)) hlt) (lt_irrefl _)
  · exact ⟨fun _ => h₂, fun _ => rfl⟩
  · constructor
    · intro hcontra
      exact absurd hcontra (by simp)
    · intro hlt
      exact absurd hlt h₂

/-- Counterexample to C8 as stated: with the ambiguity threshold configured at 0.9
(above the override floor), a prompt hitting two reasoning keywords with zero
dimension weights and steepness 1 yields a NON-null tier whose confidence is
below the threshold. -/
theorem classifyByRules_ambiguous_iff_cex :
    (classifyByRules "prove the theorem" none 4 cexScoring).tier ≠ none ∧
    (classifyByRules "prove the theorem" none 4 cexScoring).confidence <
      ((cexScoring.confidenceThreshold : ℚ) : ℝ) := by
  have h : 2 ≤ reasoningHitCount "prove the theorem" cexScoring := by decide
  rw [classifyByRules_override_eq "prove the theorem" none 4 cexScoring h]
  have hscore : classifierScore "prove the theorem" none 4 cexScoring = 0 := by
    unfold classifierScore
    have hw : cexScoring.dimensionWeights = [] := rfl
    rw [hw]
    exact weightedScoreOf_nil _
  constructor
  · simp
  · have hmax : max (classifierScore "prove the theorem" none 4 cexScoring) (3/10 : ℚ) = 3/10 := by
      rw [hscore]
      norm_num
    have hsteep : cexScoring.confidenceSteepness = 1 := rfl
    have hthr : cexScoring.confidenceThreshold = 9/10 := rfl
    have hcal : calibrateConfidence (3/10) 1 < (9/10 : ℝ) := by
      unfold calibrateConfidence
      have h1 : (((1 : ℚ) * (3/10) : ℚ) : ℝ) = (3/10 : ℝ) := by norm_num
      rw [h1]
      have h2 : (7/10 : ℝ) ≤ Real.exp (-(3/10 : ℝ)) := by
        have h3 := Real.add_one_le_exp (-(3/10 : ℝ))
        linarith
      have h4 : (0 : ℝ) < 1 + Real.exp (-(3/10 : ℝ)) := by positivity
      rw [div_lt_iff₀ h4]
      linarith
    show max (calibrateConfidence (max (classifierScore "prove the theorem" none 4 cexScoring)
      (3/10)) cexScoring.confidenceSteepness) 0.85 < ((cexScoring.confidenceThreshold : ℚ) : ℝ)
    rw [hmax, hsteep, hthr]
    have hthr' : (((9:ℚ)/10 : ℚ) : ℝ) = (9/10 : ℝ) := by norm_num
    rw [hthr']
    exact max_lt hcal (by norm_num)

/-- Witness for the amended C8 at a concrete input and configuration. -/
theorem classifyByRules_ambiguous_iff_witness :
    (testScoring.confidenceThreshold ≤ 17/20) ∧
    ((classifyByRules "hello there" none 3 testScoring).tier = none ↔
      (classifyByRules "hello there" none 3 testScoring).confidence <
        (testScoring.confidenceThreshold : ℝ)) :=
  ⟨by norm_num [testScoring],
   classifyByRules_ambiguous_iff "hello there" none 3 testScoring (by norm_num [testScoring])⟩

/-! ## C4 — large-context override forces COMPLEX at confidence 0.95 -/

/-- C4: when the estimated total token count (`ceil(len/4)` over system+user text)
exceeds the configured `maxTokensForceComplex` ceiling, `route` returns exactly
the decision produced by `selectModel COMPLEX 0.95`, independent of the prompt
content and with no classification performed; in particular the tier is COMPLEX
and the confidence 0.95. -/
theorem route_large_context (prompt : String) (systemPrompt : Option String)
    (maxOutputTokens : Nat) (options : RouterOptions)
    (h : options.config.overrides.maxTokensForceComplex <
        (((systemPrompt.getD "") ++ " " ++ prompt).length + 3) / 4) :
    route prompt systemPrompt maxOutputTokens options =
      selectModel .COMPLEX (0.95 : ℝ) .rules
        ("Input exceeds " ++ toString options.config.overrides.maxTokensForceComplex ++
          " tokens")
        options.config.tiers options.modelPricing
        ((((systemPrompt.getD "") ++ " " ++ prompt).length + 3) / 4) maxOutputTokens ∧
    (route prompt systemPrompt maxOutputTokens options).tier = .COMPLEX ∧
    (route prompt systemPrompt maxOutputTokens options).confidence = (0.95 : ℝ) := by
  have heq : route prompt systemPrompt maxOutputTokens options =
      selectModel .COMPLEX (0.95 : ℝ) .rules
        ("Input exceeds " ++ toString options.config.overrides.maxTokensForceComplex ++
          " tokens")
        options.config.tiers options.modelPricing
        ((((systemPrompt.getD "") ++ " " ++ prompt).length + 3) / 4) maxOutputTokens := by
    unfold route
    simp only []
    rw [if_pos h]
  refine ⟨heq, ?_, ?_⟩ <;> rw [heq] <;> simp [selectModel]

/-- Witness for C4: a short prompt against a 1-token ceiling. -/
theorem route_large_context_witness :
    (smallCeilingOptions.config.overrides.maxTokensForceComplex <
      ((((none : Option String).getD "") ++ " " ++ "summarise the design").length + 3) / 4) ∧
    ((route "summarise the design" none 256 smallCeilingOptions).tier = .COMPLEX ∧
      (route "summarise the design" none 256 smallCeilingOptions).confidence = (0.95 : ℝ)) :=
  ⟨by decide,
   (route_large_context "summarise the design" none 256 smallCeilingOptions (by decide)).2⟩

/-! ## C7 — selectModel cost estimate, baseline and savings -/

/-- C7: `selectModel` computes `costEstimate` from the tier's primary model price
(zero when the model id is absent from the pricing map), `baselineCost` from the
fixed premium reference model `anthropic/claude-opus-4.6` under the same token
counts, and `savings = max 0 ((baseline − cost)/baseline)` when the baseline is
positive (0 otherwise); for non-negative prices the savings always lie in [0, 1]. -/
theorem selectModel_cost_and_savings (tier : Tier) (confidence : ℝ) (method : RouteMethod)
    (reasoning : String) (tierConfigs : Tier → TierConfig)
    (modelPricing : List (String × ModelPricing)) (estimatedInputTokens maxOutputTokens : Nat)
    (hnn : ∀ e ∈ modelPricing, 0 ≤ e.2.inputPrice ∧ 0 ≤ e.2.outputPrice) :
    ((selectModel tier confidence method reasoning tierConfigs modelPricing
        estimatedInputTokens maxOutputTokens).costEstimate =
      (match modelPricing.lookup (tierConfigs tier).primary with
       | some p => (estimatedInputTokens : ℚ) / 1000000 * p.inputPrice +
           (maxOutputTokens : ℚ) / 1000000 * p.outputPrice
       | none => 0)) ∧
    ((selectModel tier confidence method reasoning tierConfigs modelPricing
        estimatedInputTokens maxOutputTokens).baselineCost =
      (match modelPricing.lookup "anthropic/claude-opus-4.6" with
       | some p => (estimatedInputTokens : ℚ) / 1000000 * p.inputPrice +
           (maxOutputTokens : ℚ) / 1000000 * p.outputPrice
       | none => 0)) ∧
    ((selectModel tier confidence method reasoning tierConfigs modelPricing
        estimatedInputTokens maxOutputTokens).savings =
      (if 0 < (selectModel tier confidence method reasoning tierConfigs modelPricing
            estimatedInputTokens maxOutputTokens).baselineCost then
        max 0 (((selectModel tier confidence method reasoning tierConfigs modelPricing
            estimatedInputTokens maxOutputTokens).baselineCost -
          (selectModel tier confidence method reasoning tierConfigs modelPricing
            estimatedInputTokens maxOutputTokens).costEstimate) /
          (selectModel tier confidence method reasoning tierConfigs modelPricing
            estimatedInputTokens maxOutputTokens).baselineCost)
       else 0)) ∧
    0 ≤ (selectModel tier confidence method reasoning tierConfigs modelPricing
        estimatedInputTokens maxOutputTokens).savings ∧
    (selectModel tier confidence method reasoning tierConfigs modelPricing
        estimatedInputTokens maxOutputTokens).savings ≤ 1 := by
  have hcost : 0 ≤ (selectModel tier confidence method reasoning tierConfigs modelPricing
      estimatedInputTokens maxOutputTokens).costEstimate := by
    unfold selectModel
    simp only []
    cases hm : modelPricing.lookup (tierConfigs tier).primary with
    | none => norm_num
    | some p =>
      have hp := hnn _ (mem_of_lookup_eq_some hm)
      have h1 : (0:ℚ) ≤ (estimatedInputTokens : ℚ) / 1000000 * p.inputPrice :=
        mul_nonneg (by positivity) hp.1
      have h2 : (0:ℚ) ≤ (maxOutputTokens : ℚ) / 1000000 * p.outputPrice :=
        mul_nonneg (by positivity) hp.2
      simpa using add_nonneg h1 h2
  refine ⟨?_, ?_, ?_, ?_, ?_⟩
  · unfold selectModel
    cases hm : modelPricing.lookup (tierConfigs tier).primary <;> simp [hm]
  · unfold selectModel
    cases hb : modelPricing.lookup "anthropic/claude-opus-4.6" <;> simp [hb]
  · unfold selectModel
    simp only []
  · unfold selectModel
    simp only []
    split_ifs with hb
    · exact le_max_left _ _
    · exact le_refl 0
  · by_cases hb : 0 < (selectModel tier confidence method reasoning tierConfigs modelPricing
        estimatedInputTokens maxOutputTokens).baselineCost
    · have hsav : (selectModel tier confidence method reasoning tierConfigs modelPricing
          estimatedInputTokens maxOutputTokens).savings =
          max 0 (((selectModel tier confidence method reasoning tierConfigs modelPricing
              estimatedInputTokens maxOutputTokens).baselineCost -
            (selectModel tier confidence method reasoning tierConfigs modelPricing
              estimatedInputTokens maxOutputTokens).costEstimate) /
            (selectModel tier confidence method reasoning tierConfigs modelPricing
              estimatedInputTokens maxOutputTokens).baselineCost) := by
        unfold selectModel at hb ⊢
        simp only [] at hb ⊢
        rw [if_pos hb]
      rw [hsav]
      refine max_le (by norm_num) ?_
      rw [div_le_one hb]
      linarith [hcost]
    · have hsav : (selectModel tier confidence method reasoning tierConfigs modelPricing
          estimatedInputTokens maxOutputTokens).savings = 0 := by
        unfold selectModel at hb ⊢
        simp only [] at hb ⊢
        rw [if_neg hb]
      rw [hsav]
      norm_num

/-- Witness for C7 at a concrete pricing map. -/
theorem selectModel_cost_and_savings_witness :
    (∀ e ∈ testPricing, 0 ≤ e.2.inputPrice ∧ 0 ≤ e.2.outputPrice) ∧
    (0 ≤ (selectModel .COMPLEX (0.8 : ℝ) .rules "r" testTiers testPricing 1000 2000).savings ∧
      (selectModel .COMPLEX (0.8 : ℝ) .rules "r" testTiers testPricing 1000 2000).savings ≤ 1) :=
  have hnn : ∀ e ∈ testPricing, 0 ≤ e.2.inputPrice ∧ 0 ≤ e.2.outputPrice := by
    intro e he
    simp only [testPricing, List.mem_cons, List.not_mem_nil, or_false] at he
    rcases he with rfl | rfl | rfl <;> exact ⟨by norm_num, by norm_num⟩
  ⟨hnn,
   ⟨(selectModel_cost_and_savings .COMPLEX (0.8 : ℝ) .rules "r" testTiers testPricing
       1000 2000 hnn).2.2.2.1,
    (selectModel_cost_and_savings .COMPLEX (0.8 : ℝ) .rules "r" testTiers testPricing
       1000 2000 hnn).2.2.2.2⟩⟩

/-! ## Request deduplicator (`src/unnamed/part_000`, `dedup.ts`) -/

/-- A completed cached response (`CachedResponse`).  Bodies (JS `Buffer`s) are
modelled as strings; `body.length` is the character count, which coincides with
the byte count on the ASCII payloads considered. -/
structure CachedResponse where
  status : Nat
  headers : List (String × String)
  body : String
  completedAt : Nat
deriving DecidableEq, Repr

/-- An in-flight entry.  The JS implementation chains each joiner's resolution
behind the previously registered ones (`getInflight` wraps `entry.resolve` so the
original resolver runs first), so waiters are released in registration order; the
chain is modelled as the list of waiter identifiers in registration order. -/
structure InflightEntry where
  resolveChain : List Nat
deriving DecidableEq, Repr

def DEFAULT_TTL_MS : Nat := 30000

def MAX_BODY_SIZE : Nat := 1048576

/-- JS `Map.get` over an insertion-ordered association list. -/
def mapGet {α : Type} (m : List (String × α)) (k : String) : Option α :=
  m.lookup k

/-- JS `Map.set`: update in place when the key exists, else append. -/
def mapSet {α : Type} : List (String × α) → String → α → List (String × α)
  | [], k, v => [(k, v)]
  | (k', v') :: rest, k, v =>
    if k' = k then (k, v) :: rest else (k', v') :: mapSet rest k v

/-- JS `Map.delete`. -/
def mapDelete {α : Type} (m : List (String × α)) (k : String) : List (String × α) :=
  m.filter fun e => decide (e.1 ≠ k)

/-- The mutable state of a `RequestDeduplicator` instance. -/
structure DedupState where
  inflight : List (String × InflightEntry)
  completed : List (String × CachedResponse)
  ttlMs : Nat
deriving DecidableEq, Repr

namespace RequestDeduplicator

/-- `getCached`: returns a non-expired completed entry or nothing; an expired
entry is evicted on access.  Returns the result together with the updated state. -/
def getCached (s : DedupState) (key : String) (now : Nat) :
    Option CachedResponse × DedupState :=
  match mapGet s.completed key with
  | none => (none, s)
  | some entry =>
    if s.ttlMs < now - entry.completedAt then
      (none, { s with completed := mapDelete s.completed key })
    else
      (some entry, s)

/-- `getInflight`: joins a pending execution by appending the waiter behind the
existing resolve chain; the boolean records whether an in-flight entry existed
(i.e. whether the JS method returned a promise). -/
def getInflight (s : DedupState) (key : String) (waiter : Nat) : Bool × DedupState :=
  match mapGet s.inflight key with
  | none => (false, s)
  | some entry =>
    (true, { s with inflight := mapSet s.inflight key ⟨entry.resolveChain ++ [waiter]⟩ })

/-- `markInflight`: register a fresh in-flight entry with an empty waiter chain. -/
def markInflight (s : DedupState) (key : String) : DedupState :=
  { s with inflight := mapSet s.inflight key ⟨[]⟩ }

/-- `prune`: drop completed entries whose age exceeds the TTL. -/
def prune (s : DedupState) (now : Nat) : DedupState :=
  { s with completed := s.completed.filter fun e => decide (now - e.2.completedAt ≤ s.ttlMs) }

/-- `complete`: cache the result when within the size bound, release every waiter
in the chain with the identical result (in registration order), remove the
in-flight entry, then prune expired completed entries.  The returned list records
the deliveries `(waiter, result)` in resolution order. -/
def complete (s : DedupState) (key : String) (result : CachedResponse) (now : Nat) :
    List (Nat × CachedResponse) × DedupState :=
  let completed' :=
    if result.body.length ≤ MAX_BODY_SIZE then mapSet s.completed key result
    else s.completed
  match mapGet s.inflight key with
  | some entry =>
    (entry.resolveChain.map fun w => (w, result),
     prune { s with completed := completed', inflight := mapDelete s.inflight key } now)
  | none =>
    ([], prune { s with completed := completed' } now)

/-- `removeInflight`: drop the in-flight entry (used on failure or client
disconnect); the completed cache is never touched. -/
def removeInflight (s : DedupState) (key : String) : DedupState :=
  { s with inflight := mapDelete s.inflight key }

end RequestDeduplicator

/-- One deduplicator operation, for stating state-machine invariants. -/
inductive DedupOp where
  | getCached (key : String) (now : Nat)
  | getInflight (key : String) (waiter : Nat)
  | markInflight (key : String)
  | complete (key : String) (result : CachedResponse) (now : Nat)
  | removeInflight (key : String)
deriving DecidableEq, Repr

/-- State transition of one deduplicator operation. -/
def applyOp (s : DedupState) : DedupOp → DedupState
  | .getCached key now => (RequestDeduplicator.getCached s key now).2
  | .getInflight key w => (RequestDeduplicator.getInflight s key w).2
  | .markInflight key => RequestDeduplicator.markInflight s key
  | .complete key r now => (RequestDeduplicator.complete s key r now).2
  | .removeInflight key => RequestDeduplicator.removeInflight s key

/-! ### Association-list lemmas -/

lemma mapGet_eq_none_iff {α : Type} {m : List (String × α)} {k : String} :
    mapGet m k = none ↔ ∀ e ∈ m, e.1 ≠ k := by
  induction m with
  | nil => simp [mapGet, List.lookup]
  | cons e rest ih =>
    obtain ⟨a, b⟩ := e
    by_cases hak : k = a
    · subst hak
      simp [mapGet, List.lookup]
    · have hbeq : (k == a) = false := by simp [hak]
      constructor
      · intro h
        have h' : mapGet rest k = none := by
          simpa [mapGet, List.lookup, hbeq] using h
        intro e he
        rcases List.mem_cons.mp he with rfl | he'
        · simpa using fun hc => hak hc.symm
        · exact ih.mp h' e he'
      · intro h
        have h' : mapGet rest k = none := ih.mpr fun e he => h e (List.mem_cons_of_mem _ he)
        simpa [mapGet, List.lookup, hbeq] using h'

lemma mapGet_mapSet_self {α : Type} (m : List (String × α)) (k : String) (v : α) :
    mapGet (mapSet m k v) k = some v := by
  induction m with
  | nil => simp [mapSet, mapGet, List.lookup]
  | cons e rest ih =>
    obtain ⟨a, b⟩ := e
    by_cases hak : a = k
    · simp [mapSet, hak, mapGet, List.lookup]
    · have hka : ¬ k = a := fun hc => hak hc.symm
      have hbeq : (k == a) = false := by simp [hka]
      simpa [mapSet, hak, mapGet, List.lookup, hbeq] using ih

lemma mem_mapSet {α : Type} {m : List (String × α)} {k : String} {v : α}
    {e : String × α} (h : e ∈ mapSet m k v) : e = (k, v) ∨ e ∈ m := by
  induction m with
  | nil => simpa [mapSet] using h
  | cons p rest ih =>
    obtain ⟨a, b⟩ := p
    by_cases hak : a = k
    · rw [mapSet, if_pos hak] at h
      rcases List.mem_cons.mp h with rfl | h'
      · exact Or.inl rfl
      · exact Or.inr (List.mem_cons_of_mem _ h')
    · rw [mapSet, if_neg hak] at h
      rcases List.mem_cons.mp h with rfl | h'
      · exact Or.inr (List.mem_cons_self _ _)
      · rcases ih h' with h'' | h''
        · exact Or.inl h''
        · exact Or.inr (List.mem_cons_of_mem _ h'')

lemma mapGet_filter_none {α : Type} {m : List (String × α)} {k : String}
    (p : String × α → Bool) (h : mapGet m k = none) : mapGet (m.filter p) k = none :=
  mapGet_eq_none_iff.mpr fun e he => mapGet_eq_none_iff.mp h e (List.mem_of_mem_filter he)

lemma mapGet_mapDelete_self {α : Type} (m : List (String × α)) (k : String) :
    mapGet (mapDelete m k) k = none := by
  refine mapGet_eq_none_iff.mpr fun e he => ?_
  have := List.of_mem_filter he
  simpa using this

lemma mapGet_mapDelete_none {α : Type} {m : List (String × α)} {k : String} (k' : String)
    (h : mapGet m k = none) : mapGet (mapDelete m k') k = none :=
  mapGet_filter_none _ h

lemma mapGet_mapSet_none {α : Type} {m : List (String × α)} {k k' : String} (v : α)
    (h : mapGet m k = none) (hkk : k ≠ k') : mapGet (mapSet m k' v) k = none := by
  refine mapGet_eq_none_iff.mpr fun e he => ?_
  rcases mem_mapSet he with rfl | he'
  · simpa using fun hc : k' = k => hkk hc.symm
  · exact mapGet_eq_none_iff.mp h e he'

lemma mapGet_filter_mapSet {α : Type} {m : List (String × α)} {k : String} {v w : α}
    {p : String × α → Bool} (hnone : mapGet m k = none)
    (h : mapGet ((mapSet m k v).filter p) k = some w) : w = v := by
  have hmem : (k, w) ∈ (mapSet m k v).filter p := mem_of_lookup_eq_some h
  have hmem' : (k, w) ∈ mapSet m k v := List.mem_of_mem_filter hmem
  rcases mem_mapSet hmem' with he | he
  · exact congrArg Prod.snd he
  · exact absurd rfl (mapGet_eq_none_iff.mp hnone _ he)

lemma mapGet_filter_mapSet_self {α : Type} {m : List (String × α)} {k : String} {v : α}
    {p : String × α → Bool} (hnone : mapGet m k = none) (hp : p (k, v) = true) :
    mapGet ((mapSet m k v).filter p) k = some v := by
  induction m with
  | nil => simp [mapSet, List.filter, hp, mapGet, List.lookup]
  | cons e rest ih =>
    obtain ⟨a, b⟩ := e
    have hka : k ≠ a := by
      intro hc
      exact mapGet_eq_none_iff.mp hnone (a, b) (List.mem_cons_self _ _) (by simp [hc])
    have hrest : mapGet rest k = none :=
      mapGet_eq_none_iff.mpr fun e he =>
        mapGet_eq_none_iff.mp hnone e (List.mem_cons_of_mem _ he)
    have hak : ¬ a = k := fun hc => hka hc.symm
    rw [mapSet, if_neg hak]
    have hbeq : (k == a) = false := by simp [hka]
    by_cases hpe : p (a, b) = true
    · rw [List.filter_cons_of_pos hpe]
      simpa [mapGet, List.lookup, hbeq] using ih hrest
    · rw [List.filter_cons_of_neg (by simpa using hpe)]
      exact ih hrest

/-! ## C2 — completed entries arise only from `complete`; removal never caches -/

/-- C2: `removeInflight` removes the in-flight entry without touching the
completed cache, and across every deduplicator operation a key can transition to
a completed (cached) entry only through `complete` with exactly that result — so a
failed or disconnected delivery (cleared via `removeInflight`) is never served
from the cache to a later retry. -/
theorem dedup_completed_only_by_complete (s : DedupState) (k : String) :
    ((applyOp s (.removeInflight k)).completed = s.completed ∧
      mapGet (applyOp s (.removeInflight k)).inflight k = none) ∧
    (∀ (op : DedupOp) (r : CachedResponse),
      mapGet s.completed k = none →
      mapGet (applyOp s op).completed k = some r →
      ∃ now, op = .complete k r now) := by
  constructor
  · exact ⟨rfl, mapGet_mapDelete_self _ _⟩
  · intro op r hnone hsome
    cases op with
    | getCached key now =>
      exfalso
      have : mapGet (applyOp s (.getCached key now)).completed k = none := by
        simp only [applyOp]
        unfold RequestDeduplicator.getCached
        cases hm : mapGet s.completed key with
        | none => exact hnone
        | some entry =>
          dsimp only
          split_ifs
          · exact mapGet_mapDelete_none key hnone
          · exact hnone
      rw [this] at hsome
      exact Option.noConfusion hsome
    | getInflight key w =>
      exfalso
      have : (applyOp s (.getInflight key w)).completed = s.completed := by
        simp only [applyOp]
        unfold RequestDeduplicator.getInflight
        cases hm : mapGet s.inflight key <;> rfl
      rw [this, hnone] at hsome
      exact Option.noConfusion hsome
    | markInflight key =>
      exfalso
      rw [show (applyOp s (.markInflight key)).completed = s.completed from rfl, hnone] at hsome
      exact Option.noConfusion hsome
    | removeInflight key =>
      exfalso
      rw [show (applyOp s (.removeInflight key)).completed = s.completed from rfl, hnone]
        at hsome
      exact Option.noConfusion hsome
    | complete key result now =>
      refine ⟨now, ?_⟩
      by_cases hkey : key = k
      · subst hkey
        by_cases hsz : result.body.length ≤ MAX_BODY_SIZE
        · have hcompleted : (applyOp s (.complete key result now)).completed =
              ((mapSet s.completed key result).filter
                (fun e => decide (now - e.2.completedAt ≤ s.ttlMs))) := by
            simp only [applyOp]
            unfold RequestDeduplicator.complete RequestDeduplicator.prune
            rw [if_pos hsz]
            cases hm : mapGet s.inflight key <;> rfl
          rw [hcompleted] at hsome
          obtain rfl := mapGet_filter_mapSet hnone hsome
          rfl
        · exfalso
          have hcompleted : (applyOp s (.complete key result now)).completed =
              (s.completed.filter (fun e => decide (now - e.2.completedAt ≤ s.ttlMs))) := by
            simp only [applyOp]
            unfold RequestDeduplicator.complete RequestDeduplicator.prune
            rw [if_neg hsz]
            cases hm : mapGet s.inflight key <;> rfl
          rw [hcompleted, mapGet_filter_none _ hnone] at hsome
          exact Option.noConfusion hsome
      · exfalso
        have hstay : mapGet (applyOp s (.complete key result now)).completed k = none := by
          simp only [applyOp]
          unfold RequestDeduplicator.complete RequestDeduplicator.prune
          dsimp only
          split_ifs with hsz
          · cases hm : mapGet s.inflight key <;>
              exact mapGet_filter_none _
                (mapGet_mapSet_none result hnone fun hc => hkey hc.symm)
          · cases hm : mapGet s.inflight key <;> exact mapGet_filter_none _ hnone
        rw [hstay] at hsome
        exact Option.noConfusion hsome

/-- Witness for C2: a concrete state, operation and result discharging the
implication at the point where `complete` caches a fresh entry. -/
theorem dedup_completed_only_by_complete_witness :
    (mapGet (⟨[], [], DEFAULT_TTL_MS⟩ : DedupState).completed "k" = none ∧
      mapGet (applyOp (⟨[], [], DEFAULT_TTL_MS⟩ : DedupState)
        (.complete "k" ⟨200, [], "ok", 3⟩ 3)).completed "k" = some ⟨200, [], "ok", 3⟩) ∧
    ((applyOp (⟨[], [], DEFAULT_TTL_MS⟩ : DedupState) (.removeInflight "k")).completed =
        (⟨[], [], DEFAULT_TTL_MS⟩ : DedupState).completed ∧
      mapGet (applyOp (⟨[], [], DEFAULT_TTL_MS⟩ : DedupState)
        (.removeInflight "k")).inflight "k" = none) ∧
    (∃ now, (DedupOp.complete "k" ⟨200, [], "ok", 3⟩ 3) =
      .complete "k" (⟨200, [], "ok", 3⟩ : CachedResponse) now) :=
  ⟨⟨rfl, by decide⟩,
   (dedup_completed_only_by_complete ⟨[], [], DEFAULT_TTL_MS⟩ "k").1,
   (dedup_completed_only_by_complete ⟨[], [], DEFAULT_TTL_MS⟩ "k").2
     (.complete "k" ⟨200, [], "ok", 3⟩ 3) ⟨200, [], "ok", 3⟩ rfl (by decide)⟩

/-! ## C6 — complete releases all joiners FIFO with the identical result -/

/-- Register a list of joiners against one key, in order (`getInflight` per
joiner). -/
def registerAll (s : DedupState) (key : String) (ws : List Nat) : DedupState :=
  ws.foldl (fun s w => (RequestDeduplicator.getInflight s key w).2) s

lemma registerAll_chain_aux (ws : List Nat) :
    ∀ (s : DedupState) (key : String) (chain : List Nat),
    mapGet s.inflight key = some ⟨chain⟩ →
    mapGet (registerAll s key ws).inflight key = some ⟨chain ++ ws⟩ ∧
    (registerAll s key ws).completed = s.completed ∧
    (registerAll s key ws).ttlMs = s.ttlMs := by
  induction ws with
  | nil =>
    intro s key chain h
    exact ⟨by simpa [registerAll] using h, rfl, rfl⟩
  | cons w rest ih =>
    intro s key chain h
    have hstep : (RequestDeduplicator.getInflight s key w).2 =
        { s with inflight := mapSet s.inflight key ⟨chain ++ [w]⟩ } := by
      unfold RequestDeduplicator.getInflight
      rw [h]
    have hreg : registerAll s key (w :: rest) =
        registerAll { s with inflight := mapSet s.inflight key ⟨chain ++ [w]⟩ } key rest := by
      unfold registerAll
      rw [List.foldl_cons, hstep]
    rw [hreg]
    have hmid : mapGet (mapSet s.inflight key ⟨chain ++ [w]⟩) key = some ⟨chain ++ [w]⟩ :=
      mapGet_mapSet_self _ _ _
    obtain ⟨h1, h2, h3⟩ :=
      ih { s with inflight := mapSet s.inflight key ⟨chain ++ [w]⟩ } key (chain ++ [w]) hmid
    exact ⟨by simpa using h1, h2, h3⟩

/-- C6: after `markInflight` and any list of joiners registered via `getInflight`,
one `complete` call delivers the identical result to every joiner in registration
(FIFO) order, stores the result in the completed cache exactly when its body is
within the size bound, and always removes the in-flight entry. -/
theorem complete_releases_fifo (s : DedupState) (key : String) (ws : List Nat)
    (r : CachedResponse) (now : Nat)
    (hnone : mapGet s.completed key = none)
    (hfresh : now - r.completedAt ≤ s.ttlMs) :
    ((RequestDeduplicator.complete (registerAll (RequestDeduplicator.markInflight s key) key ws)
        key r now).1 = ws.map (fun w => (w, r))) ∧
    (r.body.length ≤ MAX_BODY_SIZE →
      mapGet (RequestDeduplicator.complete
        (registerAll (RequestDeduplicator.markInflight s key) key ws) key r now).2.completed
        key = some r) ∧
    (MAX_BODY_SIZE < r.body.length →
      mapGet (RequestDeduplicator.complete
        (registerAll (RequestDeduplicator.markInflight s key) key ws) key r now).2.completed
        key = none) ∧
    mapGet (RequestDeduplicator.complete
      (registerAll (RequestDeduplicator.markInflight s key) key ws) key r now).2.inflight
      key = none := by
  have hmark : mapGet (RequestDeduplicator.markInflight s key).inflight key =
      some ⟨([] : List Nat)⟩ := mapGet_mapSet_self _ _ _
  obtain ⟨hchain, hcomp, httl⟩ :=
    registerAll_chain_aux ws (RequestDeduplicator.markInflight s key) key [] hmark
  set s₁ := registerAll (RequestDeduplicator.markInflight s key) key ws with hs₁
  have hcomp' : s₁.completed = s.completed := hcomp
  have httl' : s₁.ttlMs = s.ttlMs := httl
  have hchain' : mapGet s₁.inflight key = some ⟨ws⟩ := by simpa using hchain
  refine ⟨?_, ?_, ?_, ?_⟩
  · unfold RequestDeduplicator.complete
    rw [hchain']
  · intro hsz
    unfold RequestDeduplicator.complete RequestDeduplicator.prune
    rw [if_pos hsz, hchain']
    have hfit : (fun e : String × CachedResponse =>
        decide (now - e.2.completedAt ≤ s₁.ttlMs)) (key, r) = true := by
      rw [httl']
      simpa using hfresh
    exact mapGet_filter_mapSet_self (by rw [hcomp']; exact hnone) hfit
  · intro hsz
    unfold RequestDeduplicator.complete RequestDeduplicator.prune
    rw [if_neg (by omega), hchain']
    exact mapGet_filter_none _ (by rw [hcomp']; exact hnone)
  · unfold RequestDeduplicator.complete RequestDeduplicator.prune
    rw [hchain']
    split_ifs <;> exact mapGet_mapDelete_self _ _

/-- Concrete state for witnesses: a fresh deduplicator. -/
def freshDedupState : DedupState := ⟨[], [], DEFAULT_TTL_MS⟩

/-- Concrete cached result for the C6 witness. -/
def fifoWitnessResult : CachedResponse := ⟨200, [("content-type", "text/event-stream")], "ok", 5⟩

/-- Witness for C6: two joiners, a small result, completion at time 10. -/
theorem complete_releases_fifo_witness :
    (mapGet freshDedupState.completed "k" = none ∧
      10 - fifoWitnessResult.completedAt ≤ freshDedupState.ttlMs) ∧
    (((RequestDeduplicator.complete
        (registerAll (RequestDeduplicator.markInflight freshDedupState "k") "k" [1, 2])
        "k" fifoWitnessResult 10).1 = [1, 2].map (fun w => (w, fifoWitnessResult))) ∧
      (fifoWitnessResult.body.length ≤ MAX_BODY_SIZE →
        mapGet (RequestDeduplicator.complete
          (registerAll (RequestDeduplicator.markInflight freshDedupState "k") "k" [1, 2])
          "k" fifoWitnessResult 10).2.completed "k" = some fifoWitnessResult) ∧
      (MAX_BODY_SIZE < fifoWitnessResult.body.length →
        mapGet (RequestDeduplicator.complete
          (registerAll (RequestDeduplicator.markInflight freshDedupState "k") "k" [1, 2])
          "k" fifoWitnessResult 10).2.completed "k" = none) ∧
      mapGet (RequestDeduplicator.complete
        (registerAll (RequestDeduplicator.markInflight freshDedupState "k") "k" [1, 2])
        "k" fifoWitnessResult 10).2.inflight "k" = none) :=
  ⟨⟨rfl, by decide⟩,
   complete_releases_fifo freshDedupState "k" [1, 2] fifoWitnessResult 10 rfl (by decide)⟩

/-! ## Streaming proxy request handling (`proxyRequest`) -/

/-- The initial SSE heartbeat frame written synchronously on the streaming path. -/
def HEARTBEAT_FRAME : String := ": heartbeat\n\n"

/-- The SSE terminator frame. -/
def DONE_FRAME : String := "data: [DONE]\n\n"

/-- JSON string escaping as performed by `JSON.stringify` on the embedded error
message (the escapes relevant to the payloads considered; other control
characters would receive `\uXXXX` forms). -/
def jsonEscapeChar (c : Char) : String :=
  if c = '"' then "\\\""
  else if c = '\\' then "\\\\"
  else if c = '\n' then "\\n"
  else if c = '\r' then "\\r"
  else if c = '\t' then "\\t"
  else String.mk [c]

def jsonEscape (s : String) : String :=
  String.join (s.data.map jsonEscapeChar)

/-- The SSE error event built when the upstream answers a streaming request with
a non-200 status:
`data: {"error":{"message":<body>,"type":"upstream_error","status":<status>}}`
followed by a blank line. -/
def sseErrorEvent (errBody : String) (status : Nat) : String :=
  "data: \x7b\"error\":\x7b\"message\":\"" ++ jsonEscape errBody ++
    "\",\"type\":\"upstream_error\",\"status\":" ++ toString status ++ "\x7d\x7d\n\n"

/-- An upstream (`fetch`) response: status, headers, and the body as the list of
chunks read from the reader. -/
structure UpstreamResponse where
  status : Nat
  headers : List (String × String)
  chunks : List String
deriving DecidableEq, Repr

/-- What the proxy sends back to its client: status line, headers and the full
body bytes (heartbeat frames included on the streaming path). -/
structure ClientResponse where
  status : Nat
  headers : List (String × String)
  body : String
deriving DecidableEq, Repr

/-- The headers flushed early on the streaming path. -/
def streamHeaders : List (String × String) :=
  [("content-type", "text/event-stream"), ("cache-control", "no-cache"),
   ("connection", "keep-alive")]

/-- Upstream response headers forwarded on the non-streaming path
(`transfer-encoding` and `connection` stripped). -/
def filteredRespHeaders (up : UpstreamResponse) : List (String × String) :=
  up.headers.filter fun kv =>
    decide (kv.1 ≠ "transfer-encoding") && decide (kv.1 ≠ "connection")

/-- Outcome of handling one request. `joinedInflight` marks the path where the
request awaits an already-pending execution (not reached in the sequential
scenarios below). -/
inductive HandleResult where
  | served (response : ClientResponse) (state : DedupState) (calledUpstream : Bool)
  | joinedInflight (state : DedupState)
deriving DecidableEq, Repr

/-- The dedup-check/forward/relay stage of `proxyRequest`, as a sequential
state-passing function: dedup key over the (already rewritten) body, cache
lookup, in-flight join, else mark in-flight, forward upstream and relay while
buffering for the cache.  The streaming path flushes status 200 with SSE headers
and an initial heartbeat frame before upstream data, converts a non-200 upstream
into an SSE error event plus `data: [DONE]`, and caches a status-200 entry with
only the content-type header; the non-streaming path relays the upstream status
and filtered headers verbatim.  Periodic heartbeat timer frames, client
disconnects and thrown errors are outside this sequential model; `Date.now()` is
frozen at `now` for the request. -/
def handleRequest (hashFn : String → String) (s : DedupState) (body : String)
    (isStreaming : Bool) (upstream : UpstreamResponse) (now : Nat) : HandleResult :=
  let dedupKey := hashFn body
  match RequestDeduplicator.getCached s dedupKey now with
  | (some cached, s₁) => .served ⟨cached.status, cached.headers, cached.body⟩ s₁ false
  | (none, s₁) =>
    if (mapGet s₁.inflight dedupKey).isSome then
      .joinedInflight s₁
    else
      let s₂ := RequestDeduplicator.markInflight s₁ dedupKey
      if isStreaming then
        if upstream.status ≠ 200 then
          let errEvent := sseErrorEvent (String.join upstream.chunks) upstream.status
          let entry : CachedResponse :=
            ⟨200, [("content-type", "text/event-stream")], errEvent ++ DONE_FRAME, now⟩
          .served ⟨200, streamHeaders, HEARTBEAT_FRAME ++ errEvent ++ DONE_FRAME⟩
            (RequestDeduplicator.complete s₂ dedupKey entry now).2 true
        else
          let data := String.join upstream.chunks
          let entry : CachedResponse :=
            ⟨200, [("content-type", "text/event-stream")], data, now⟩
          .served ⟨200, streamHeaders, HEARTBEAT_FRAME ++ data⟩
            (RequestDeduplicator.complete s₂ dedupKey entry now).2 true
      else
        let data := String.join upstream.chunks
        let entry : CachedResponse := ⟨upstream.status, filteredRespHeaders upstream, data, now⟩
        .served ⟨upstream.status, filteredRespHeaders upstream, data⟩
          (RequestDeduplicator.complete s₂ dedupKey entry now).2 true

/-! ### Path lemmas for `handleRequest` -/

lemma getCached_none_of_absent {s : DedupState} {key : String} (now : Nat)
    (h : mapGet s.completed key = none) :
    RequestDeduplicator.getCached s key now = (none, s) := by
  unfold RequestDeduplicator.getCached
  rw [h]

lemma complete_mark_cached (s : DedupState) (key : String) (r : CachedResponse) (now : Nat)
    (hnone : mapGet s.completed key = none) (hsz : r.body.length ≤ MAX_BODY_SIZE)
    (hfresh : now - r.completedAt ≤ s.ttlMs) :
    mapGet (RequestDeduplicator.complete (RequestDeduplicator.markInflight s key)
      key r now).2.completed key = some r ∧
    (RequestDeduplicator.complete (RequestDeduplicator.markInflight s key)
      key r now).2.ttlMs = s.ttlMs := by
  have hchain : mapGet (RequestDeduplicator.markInflight s key).inflight key =
      some ⟨([] : List Nat)⟩ := mapGet_mapSet_self _ _ _
  unfold RequestDeduplicator.complete RequestDeduplicator.prune
  rw [if_pos hsz, hchain]
  refine ⟨?_, rfl⟩
  exact mapGet_filter_mapSet_self hnone (by simpa using hfresh)

lemma handleRequest_fresh_nonstream (hashFn : String → String) (s : DedupState) (body : String)
    (up : UpstreamResponse) (t : Nat)
    (hnc : mapGet s.completed (hashFn body) = none)
    (hni : mapGet s.inflight (hashFn body) = none) :
    handleRequest hashFn s body false up t =
      .served ⟨up.status, filteredRespHeaders up, String.join up.chunks⟩
        (RequestDeduplicator.complete (RequestDeduplicator.markInflight s (hashFn body))
          (hashFn body)
          ⟨up.status, filteredRespHeaders up, String.join up.chunks, t⟩ t).2 true := by
  unfold handleRequest
  simp only []
  rw [getCached_none_of_absent t hnc]
  simp only [hni, Option.isSome_none, Bool.false_eq_true, if_false]

lemma handleRequest_fresh_stream_error (hashFn : String → String) (s : DedupState)
    (body : String) (up : UpstreamResponse) (t : Nat)
    (hnc : mapGet s.completed (hashFn body) = none)
    (hni : mapGet s.inflight (hashFn body) = none)
    (hstat : up.status ≠ 200) :
    handleRequest hashFn s body true up t =
      .served ⟨200, streamHeaders,
          HEARTBEAT_FRAME ++ sseErrorEvent (String.join up.chunks) up.status ++ DONE_FRAME⟩
        (RequestDeduplicator.complete (RequestDeduplicator.markInflight s (hashFn body))
          (hashFn body)
          ⟨200, [("content-type", "text/event-stream")],
            sseErrorEvent (String.join up.chunks) up.status ++ DONE_FRAME, t⟩ t).2 true := by
  unfold handleRequest
  simp only []
  rw [getCached_none_of_absent t hnc]
  simp only [hni, Option.isSome_none, Bool.false_eq_true, if_false, if_true]
  rw [if_pos hstat]

/-! ## C5 — dedup idempotence for byte-identical sequential requests -/

/-- C5 (amended): for two sequential requests with byte-identical bodies where the
first is fresh (its key neither cached nor in flight), NON-streaming, with a
response body within the dedup size bound, and the second arrives within the TTL
window after the first completes, the second response has status, headers and
body identical to the first, and only the first request calls the upstream.  (As
stated the claim fails for streaming requests — heartbeat framing and the reduced
cached header set make the replayed response differ byte-wise — and for bodies
above the 1 MiB cache bound.) -/
theorem dedup_idempotent_pair (hashFn : String → String) (s₀ : DedupState) (body : String)
    (up₁ up₂ : UpstreamResponse) (t₁ t₂ : Nat)
    (hnc : mapGet s₀.completed (hashFn body) = none)
    (hni : mapGet s₀.inflight (hashFn body) = none)
    (hsize : (String.join up₁.chunks).length ≤ MAX_BODY_SIZE)
    (httl : t₂ - t₁ ≤ s₀.ttlMs) :
    ∃ s₁ : DedupState,
      handleRequest hashFn s₀ body false up₁ t₁ =
        .served ⟨up₁.status, filteredRespHeaders up₁, String.join up₁.chunks⟩ s₁ true ∧
      handleRequest hashFn s₁ body false up₂ t₂ =
        .served ⟨up₁.status, filteredRespHeaders up₁, String.join up₁.chunks⟩ s₁ false := by
  refine ⟨_, handleRequest_fresh_nonstream hashFn s₀ body up₁ t₁ hnc hni, ?_⟩
  obtain ⟨hcached, httl'⟩ := complete_mark_cached s₀ (hashFn body)
    ⟨up₁.status, filteredRespHeaders up₁, String.join up₁.chunks, t₁⟩ t₁ hnc hsize
    (by simp)
  have hhit : RequestDeduplicator.getCached
      (RequestDeduplicator.complete (RequestDeduplicator.markInflight s₀ (hashFn body))
        (hashFn body)
        ⟨up₁.status, filteredRespHeaders up₁, String.join up₁.chunks, t₁⟩ t₁).2
      (hashFn body) t₂ =
      (some ⟨up₁.status, filteredRespHeaders up₁, String.join up₁.chunks, t₁⟩,
       (RequestDeduplicator.complete (RequestDeduplicator.markInflight s₀ (hashFn body))
        (hashFn body)
        ⟨up₁.status, filteredRespHeaders up₁, String.join up₁.chunks, t₁⟩ t₁).2) := by
    unfold RequestDeduplicator.getCached
    rw [hcached]
    dsimp only
    rw [if_neg (by rw [httl']; exact not_lt.mpr (by simpa using httl))]
  unfold handleRequest
  simp only []
  rw [hhit]

/-- Counterexample to C5 as stated: for a STREAMING pair, the replayed second
response differs byte-wise from the first — the first carries the full SSE header
set and a leading heartbeat frame, the cached replay only the content-type header
and no heartbeat. -/
theorem dedup_idempotent_pair_cex :
    handleRequest (fun b => b) freshDedupState "b" true ⟨200, [], ["x"]⟩ 0 =
      .served ⟨200, streamHeaders, HEARTBEAT_FRAME ++ "x"⟩
        ⟨[], [("b", ⟨200, [("content-type", "text/event-stream")], "x", 0⟩)],
          DEFAULT_TTL_MS⟩ true ∧
    handleRequest (fun b => b)
      ⟨[], [("b", ⟨200, [("content-type", "text/event-stream")], "x", 0⟩)], DEFAULT_TTL_MS⟩
      "b" true ⟨200, [], ["x"]⟩ 1 =
      .served ⟨200, [("content-type", "text/event-stream")], "x"⟩
        ⟨[], [("b", ⟨200, [("content-type", "text/event-stream")], "x", 0⟩)],
          DEFAULT_TTL_MS⟩ false ∧
    (⟨200, streamHeaders, HEARTBEAT_FRAME ++ "x"⟩ : ClientResponse) ≠
      ⟨200, [("content-type", "text/event-stream")], "x"⟩ := by
  refine ⟨?_, ?_, ?_⟩ <;> decide

/-- Witness for the amended C5 at concrete values (second upstream answer differs,
demonstrating that it is never consulted). -/
theorem dedup_idempotent_pair_witness :
    (mapGet freshDedupState.completed "b" = none ∧
      mapGet freshDedupState.inflight "b" = none ∧
      (String.join (⟨200, [("x-a", "1")], ["hello"]⟩ : UpstreamResponse).chunks).length ≤
        MAX_BODY_SIZE ∧
      100 - 0 ≤ freshDedupState.ttlMs) ∧
    (∃ s₁ : DedupState,
      handleRequest (fun b => b) freshDedupState "b" false ⟨200, [("x-a", "1")], ["hello"]⟩ 0 =
        .served ⟨200, filteredRespHeaders ⟨200, [("x-a", "1")], ["hello"]⟩,
          String.join (⟨200, [("x-a", "1")], ["hello"]⟩ : UpstreamResponse).chunks⟩ s₁ true ∧
      handleRequest (fun b => b) s₁ "b" false ⟨500, [], ["boom"]⟩ 100 =
        .served ⟨200, filteredRespHeaders ⟨200, [("x-a", "1")], ["hello"]⟩,
          String.join (⟨200, [("x-a", "1")], ["hello"]⟩ : UpstreamResponse).chunks⟩ s₁ false) :=
  ⟨⟨rfl, rfl, by decide, by decide⟩,
   dedup_idempotent_pair (fun b => b) freshDedupState "b" ⟨200, [("x-a", "1")], ["hello"]⟩
     ⟨500, [], ["boom"]⟩ 0 100 rfl rfl (by decide) (by decide)⟩

/-! ## C9 — streaming upstream errors are relayed as status-200 SSE and cached -/

/-- C9 (amended): a streaming request reaching the forwarding path whose upstream
answers non-200 is served with HTTP status 200 and content-type
text/event-stream; the upstream error is delivered as an SSE data event followed
by a `data: [DONE]` terminator, and — provided that event stream fits the 1 MiB
dedup size bound — it is stored as a completed status-200 dedup entry. -/
theorem streaming_error_relay (hashFn : String → String) (s : DedupState) (body : String)
    (up : UpstreamResponse) (t : Nat)
    (hnc : mapGet s.completed (hashFn body) = none)
    (hni : mapGet s.inflight (hashFn body) = none)
    (hstat : up.status ≠ 200)
    (hsize : (sseErrorEvent (String.join up.chunks) up.status ++ DONE_FRAME).length ≤
      MAX_BODY_SIZE) :
    ∃ s' : DedupState,
      handleRequest hashFn s body true up t =
        .served ⟨200, streamHeaders,
            HEARTBEAT_FRAME ++ sseErrorEvent (String.join up.chunks) up.status ++ DONE_FRAME⟩
          s' true ∧
      mapGet s'.completed (hashFn body) =
        some ⟨200, [("content-type", "text/event-stream")],
          sseErrorEvent (String.join up.chunks) up.status ++ DONE_FRAME, t⟩ := by
  refine ⟨_, handleRequest_fresh_stream_error hashFn s body up t hnc hni hstat, ?_⟩
  exact (complete_mark_cached s (hashFn body)
    ⟨200, [("content-type", "text/event-stream")],
      sseErrorEvent (String.join up.chunks) up.status ++ DONE_FRAME, t⟩ t hnc hsize (by simp)).1

/-- Witness for the amended C9 at concrete values. -/
theorem streaming_error_relay_witness :
    (mapGet freshDedupState.completed "b" = none ∧
      mapGet freshDedupState.inflight "b" = none ∧
      (⟨429, [], ["too many requests"]⟩ : UpstreamResponse).status ≠ 200 ∧
      (sseErrorEvent (String.join (⟨429, [], ["too many requests"]⟩ :
          UpstreamResponse).chunks) 429 ++ DONE_FRAME).length ≤ MAX_BODY_SIZE) ∧
    (∃ s' : DedupState,
      handleRequest (fun b => b) freshDedupState "b" true ⟨429, [], ["too many requests"]⟩ 7 =
        .served ⟨200, streamHeaders,
            HEARTBEAT_FRAME ++ sseErrorEvent (String.join (⟨429, [], ["too many requests"]⟩ :
              UpstreamResponse).chunks) 429 ++ DONE_FRAME⟩
          s' true ∧
      mapGet s'.completed "b" =
        some ⟨200, [("content-type", "text/event-stream")],
          sseErrorEvent (String.join (⟨429, [], ["too many requests"]⟩ :
            UpstreamResponse).chunks) 429 ++ DONE_FRAME, 7⟩) :=
  ⟨⟨rfl, rfl, by decide, by decide⟩,
   streaming_error_relay (fun b => b) freshDedupState "b" ⟨429, [], ["too many requests"]⟩ 7
     rfl rfl (by decide) (by decide)⟩

/-! ### Length bounds used by the C9 counterexample -/

lemma join_length (L : List String) : (String.join L).length = (L.map String.length).sum := by
  have h : ∀ acc : String, (L.foldl (fun r s => r ++ s) acc).length =
      acc.length + (L.map String.length).sum := by
    induction L with
    | nil => intro acc; simp
    | cons a rest ih =>
      intro acc
      simp only [List.foldl_cons, List.map_cons, List.sum_cons, ih, String.length_append]
      omega
  simpa [String.join] using h ""

lemma jsonEscapeChar_length_pos (c : Char) : 1 ≤ (jsonEscapeChar c).length := by
  unfold jsonEscapeChar
  split_ifs <;> first | decide | exact Nat.le.refl

lemma jsonEscape_length_ge (s : String) : s.length ≤ (jsonEscape s).length := by
  unfold jsonEscape
  rw [join_length]
  have h1 : ∀ x ∈ (s.data.map jsonEscapeChar).map String.length, 1 ≤ x := by
    intro x hx
    simp only [List.map_map, List.mem_map, Function.comp] at hx
    obtain ⟨c, _, rfl⟩ := hx
    exact jsonEscapeChar_length_pos c
  have h2 := List.length_le_sum_of_one_le _ h1
  calc s.length = ((s.data.map jsonEscapeChar).map String.length).length := by simp
    _ ≤ _ := h2

/-- An upstream error body one character above the dedup size bound. -/
def hugeErrBody : String := String.mk (List.replicate (MAX_BODY_SIZE + 1) 'a')

/-- Counterexample to C9 as stated: when the upstream error text exceeds the
1 MiB dedup bound, the SSE error response is delivered but NOT stored — the
completed cache stays empty for the key. -/
theorem streaming_error_relay_cex :
    handleRequest (fun b => b) freshDedupState "k" true ⟨500, [], [hugeErrBody]⟩ 0 =
      .served ⟨200, streamHeaders,
          HEARTBEAT_FRAME ++ sseErrorEvent hugeErrBody 500 ++ DONE_FRAME⟩
        freshDedupState true ∧
    mapGet freshDedupState.completed "k" = none := by
  have hjoin : String.join ((⟨500, [], [hugeErrBody]⟩ : UpstreamResponse).chunks) =
      hugeErrBody := rfl
  have hlen : hugeErrBody.length = MAX_BODY_SIZE + 1 := by
    show (List.replicate (MAX_BODY_SIZE + 1) 'a').length = MAX_BODY_SIZE + 1
    exact List.length_replicate _ _
  have hbig : ¬ (sseErrorEvent hugeErrBody 500 ++ DONE_FRAME).length ≤ MAX_BODY_SIZE := by
    have h1 : hugeErrBody.length ≤ (jsonEscape hugeErrBody).length := jsonEscape_length_ge _
    unfold sseErrorEvent
    simp only [String.length_append]
    omega
  have h := handleRequest_fresh_stream_error (fun b => b) freshDedupState "k"
    ⟨500, [], [hugeErrBody]⟩ 0 rfl rfl (by decide)
  rw [hjoin] at h
  rw [h]
  refine ⟨?_, rfl⟩
  have hst : (RequestDeduplicator.complete
      (RequestDeduplicator.markInflight freshDedupState "k") "k"
      ⟨200, [("content-type", "text/event-stream")],
        sseErrorEvent hugeErrBody 500 ++ DONE_FRAME, 0⟩ 0).2 = freshDedupState := by
    unfold RequestDeduplicator.complete RequestDeduplicator.prune
      RequestDeduplicator.markInflight freshDedupState
    rw [if_neg hbig]
    rfl
  rw [hst]

/-! ## Forced-tier directive (`src/src/models.ts`) -/

/-- Match one of the four tier names at the head of `l`, case-insensitively and
followed by a word boundary (`(SIMPLE|MEDIUM|COMPLEX|REASONING)\b`); returns the
tier and the name's length. -/
def tierWordAt (l : List Char) : Option (Tier × Nat) :=
  if ciIsPrefixOf "simple".data l && !(isWordChar (l.getD 6 ' ')) then some (.SIMPLE, 6)
  else if ciIsPrefixOf "medium".data l && !(isWordChar (l.getD 6 ' ')) then some (.MEDIUM, 6)
  else if ciIsPrefixOf "complex".data l && !(isWordChar (l.getD 7 ' ')) then some (.COMPLEX, 7)
  else if ciIsPrefixOf "reasoning".data l && !(isWordChar (l.getD 9 ' ')) then
    some (.REASONING, 9)
  else none

/-- Try to match `\bUSE\s+(SIMPLE|MEDIUM|COMPLEX|REASONING)\b` (case-insensitive)
at the head of `l`.  `prevIsWord` says whether the character preceding `l` in the
whole string is a word character (deciding the leading `\b`, since `U` is a word
character).  Returns the named tier and the length of the whole match. -/
def matchDirectiveAt (prevIsWord : Bool) (l : List Char) : Option (Tier × Nat) :=
  if prevIsWord then none
  else if ciIsPrefixOf "use".data l then
    let rest := l.drop 3
    let wsLen := (rest.takeWhile isJsWhitespace).length
    if wsLen = 0 then none
    else (tierWordAt (rest.drop wsLen)).map fun tw => (tw.1, 3 + wsLen + tw.2)
  else none

/-- Leftmost-match scan for `parseForcedTier` (`TIER_OVERRIDE_REGEX.match`). -/
def findDirective : Bool → List Char → Option Tier
  | _, [] => none
  | prevIsWord, c :: rest =>
    match matchDirectiveAt prevIsWord (c :: rest) with
    | some (t, _) => some t
    | none => findDirective (isWordChar c) rest

/-- `parseForcedTier`: the tier named by the first directive in `text`, if any. -/
def parseForcedTier (text : String) : Option Tier :=
  findDirective false text.data

/-- Global replace of every directive match by the empty string
(`text.replace(TIER_OVERRIDE_REGEX_GLOBAL, "")`).  The fuel argument (≥ the
remaining length) only serves structural termination; each step consumes at least
one character.  After a match the scan resumes with `prevIsWord := true`, since a
tier name ends in a letter. -/
def stripDirectivesGo : Nat → Bool → List Char → List Char
  | 0, _, l => l
  | _ + 1, _, [] => []
  | fuel + 1, prevIsWord, c :: rest =>
    match matchDirectiveAt prevIsWord (c :: rest) with
    | some (_, len) => stripDirectivesGo fuel true ((c :: rest).drop len)
    | none => c :: stripDirectivesGo fuel (isWordChar c) rest

def replaceTierDirectives (s : String) : String :=
  String.mk (stripDirectivesGo s.data.length false s.data)

/-- Global replace of `[ \t]{2,}` by a single space: a maximal run of two or more
spaces/tabs collapses to one space; a lone space or tab is untouched. -/
def collapseSpaceRunsGo : Nat → List Char → List Char
  | 0, l => l
  | _ + 1, [] => []
  | fuel + 1, c :: rest =>
    if c = ' ' || c = '\t' then
      match rest with
      | d :: _ =>
        if d = ' ' || d = '\t' then
          ' ' :: collapseSpaceRunsGo fuel (rest.dropWhile fun e => e = ' ' || e = '\t')
        else c :: collapseSpaceRunsGo fuel rest
      | [] => [c]
    else c :: collapseSpaceRunsGo fuel rest

def collapseSpaceRuns (s : String) : String :=
  String.mk (collapseSpaceRunsGo s.data.length s.data)

/-- JS `String.prototype.trim`: strip whitespace from both ends. -/
def jsTrim (s : String) : String :=
  String.mk (((s.data.dropWhile isJsWhitespace).reverse.dropWhile isJsWhitespace).reverse)

/-- `stripForcedTierDirective`:
`text.replace(G, "").replace(/[ \t]{2,}/g, " ").trim()`. -/
def stripForcedTierDirective (text : String) : String :=
  jsTrim (collapseSpaceRuns (replaceTierDirectives text))

/-- The claim's stated forwarding transform, written from the spec's words for
comparison with the source's `stripForcedTierDirective`: the original text with
the directive substrings removed and NO other byte changed (no whitespace
collapsing, no trimming). -/
def removeDirectiveSubstringOnly (s : String) : String :=
  replaceTierDirectives s

/-! ### Chat message structure and the routing stage of `proxyRequest` -/

structure ContentPart where
  type : String
  text : Option String
deriving DecidableEq, Repr

inductive MessageContent where
  | str (s : String)
  | parts (l : List ContentPart)
deriving DecidableEq, Repr

structure ChatMessage where
  role : String
  content : Option MessageContent
deriving DecidableEq, Repr

/-- `extractText`: a plain string passes through; an array keeps the text parts
joined by newlines; anything else yields the empty string. -/
def extractText : Option MessageContent → String
  | some (.str s) => s
  | some (.parts l) =>
    String.intercalate "\n"
      ((l.filter fun p => decide (p.type = "text") && p.text.isSome).filterMap fun p => p.text)
  | none => ""

/-- The per-part loop of `extractAndStripForcedTier` for array content: the
forced tier is taken from the FIRST matching part, and every matching text part
is stripped. -/
def stripPartsGo : List ContentPart → Option Tier × List ContentPart
  | [] => (none, [])
  | p :: rest =>
    match p.text with
    | some s =>
      if p.type = "text" then
        match parseForcedTier s with
        | some t =>
          (some t,
           { p with text := some (stripForcedTierDirective s) } :: (stripPartsGo rest).2)
        | none => ((stripPartsGo rest).1, p :: (stripPartsGo rest).2)
      else ((stripPartsGo rest).1, p :: (stripPartsGo rest).2)
    | none => ((stripPartsGo rest).1, p :: (stripPartsGo rest).2)

/-- `extractAndStripForcedTier`, as a pure function returning the extracted tier
and the (possibly stripped) message. -/
def extractAndStripForcedTier : Option ChatMessage → Option Tier × Option ChatMessage
  | none => (none, none)
  | some msg =>
    match msg.content with
    | none => (none, some msg)
    | some (.str s) =>
      match parseForcedTier s with
      | some t =>
        (some t, some { msg with content := some (.str (stripForcedTierDirective s)) })
      | none => (none, some msg)
    | some (.parts l) =>
      ((stripPartsGo l).1, some { msg with content := some (.parts (stripPartsGo l).2) })

/-- The routing-relevant fields of the parsed JSON body (`JSON.parse` is
abstracted: `stream === true`, the token fields, and whether `response_format`
is a non-null object). -/
structure ParsedChatRequest where
  model : String
  stream : Bool
  maxCompletionTokens : Option Nat
  maxTokens : Option Nat
  messages : Option (List ChatMessage)
  responseFormatIsObject : Bool
deriving DecidableEq, Repr

def AUTO_MODEL : String := "clawzenmux/auto"

def AUTO_MODEL_SHORT : String := "auto"

/-- Index of the last message with role `"user"` (the backwards scan in
`proxyRequest`). -/
def lastUserIdx (ms : List ChatMessage) : Option Nat :=
  (List.range ms.length).foldl
    (fun acc i => if (ms.getD i ⟨"", none⟩).role = "user" then some i else acc) none

/-- The `RouteContext` passed by the proxy to `route`. -/
structure RouteContext where
  estimatedInputTokens : Option Nat
  forcedTier : Option Tier
  structuredOutputRequired : Bool
deriving DecidableEq, Repr

/-- Modelled from the spec: `proxyRequest` (`src/src/models.ts`) calls
`route(prompt, systemPrompt, maxTokens, routerOpts, { estimatedInputTokens,
forcedTier, structuredOutputRequired })`, but the router revision accepting
`forcedTier` in a context argument is missing from the source tree (the router in
`src/src/router/index.ts` predates that call).  Per the spec's Override Layer
(§4.3), the explicit directive has the highest precedence: "if the raw prompt
contains an embedded tier-name token, force that tier".  A present `forcedTier`
therefore selects that tier directly (full confidence, rules method); otherwise
the call falls through to the source `route`. -/
noncomputable def routeWithContext (prompt : String) (systemPrompt : Option String)
    (maxOutputTokens : Nat) (options : RouterOptions) (ctx : RouteContext) : RoutingDecision :=
  match ctx.forcedTier with
  | some t =>
    selectModel t 1 .rules ("forced tier directive: " ++ tierName t)
      options.config.tiers options.modelPricing
      (ctx.estimatedInputTokens.getD
        ((((systemPrompt.getD "") ++ " " ++ prompt).length + 3) / 4))
      maxOutputTokens
  | none => route prompt systemPrompt maxOutputTokens options

/-- The smart-routing stage of `proxyRequest` (`src/src/models.ts`): when the
request targets the auto meta-model, locate the last user message and the system
message, extract and strip a forced-tier directive from the last user message,
estimate tokens over all (post-strip) message text, and route.  Returns the
routing decision together with the messages to be forwarded; `none` when the
declared model is not the meta-model (no routing performed). -/
noncomputable def routingStage (parsed : ParsedChatRequest) (options : RouterOptions) :
    Option (RoutingDecision × List ChatMessage) :=
  if parsed.model = AUTO_MODEL ∨ parsed.model = AUTO_MODEL_SHORT then
    let messages := parsed.messages.getD []
    let maxTokens :=
      match parsed.maxCompletionTokens with
      | some n => n
      | none => match parsed.maxTokens with
        | some n => n
        | none => 4096
    let idx := lastUserIdx messages
    let extracted := extractAndStripForcedTier (idx.bind fun i => messages[i]?)
    let messages' :=
      match idx, extracted.2 with
      | some i, some m => messages.set i m
      | _, _ => messages
    let systemMsg := messages.find? fun m => decide (m.role = "system")
    let prompt := extractText (extracted.2.bind fun m => m.content)
    let systemPromptRaw := extractText (systemMsg.bind fun m => m.content)
    let systemPrompt := if systemPromptRaw = "" then none else some systemPromptRaw
    let allMessageText := String.intercalate "\n"
      ((messages'.map fun m => extractText m.content).filter fun s => decide (0 < s.length))
    let estimatedInputTokens :=
      if 0 < allMessageText.length then some ((allMessageText.length + 3) / 4) else none
    some (routeWithContext prompt systemPrompt maxTokens options
      ⟨estimatedInputTokens, extracted.1, parsed.responseFormatIsObject⟩, messages')
  else none


/-! ## C1 — directive forces the named tier; forwarded text is the stripped text -/

/-- C1 (amended): for a chat-completion request targeting the auto meta-model
whose last user message (string content) contains a tier-name directive, the
routing stage resolves exactly the directive's tier, and the forwarded
user-message text is the original text transformed by `stripForcedTierDirective`:
every directive substring removed, runs of two or more spaces/tabs collapsed to
one space, and leading/trailing whitespace trimmed — NOT byte-identical removal
alone. -/
theorem routingStage_directive (parsed : ParsedChatRequest) (options : RouterOptions)
    (ms : List ChatMessage) (i : Nat) (m : ChatMessage) (orig : String) (t : Tier)
    (hmodel : parsed.model = AUTO_MODEL ∨ parsed.model = AUTO_MODEL_SHORT)
    (hms : parsed.messages = some ms)
    (hidx : lastUserIdx ms = some i)
    (hget : ms[i]? = some m)
    (hcontent : m.content = some (.str orig))
    (hparse : parseForcedTier orig = some t) :
    (routingStage parsed options).map (fun p => p.1.tier) = some t ∧
    (routingStage parsed options).map (fun p => p.2[i]?) =
      some (some { m with content := some (.str (stripForcedTierDirective orig)) }) := by
  have hextract : extractAndStripForcedTier ms[i]? =
      (some t, some { m with content := some (.str (stripForcedTierDirective orig)) }) := by
    rw [hget]
    unfold extractAndStripForcedTier
    dsimp only
    rw [hcontent]
    dsimp only
    rw [hparse]
  have hlt : i < ms.length := by
    by_contra hge
    rw [List.getElem?_eq_none (Nat.le_of_not_lt hge)] at hget
    exact Option.noConfusion hget
  have hset : (ms.set i { m with content := some (.str (stripForcedTierDirective orig)) })[i]? =
      some { m with content := some (.str (stripForcedTierDirective orig)) } :=
    List.getElem?_set_eq_of_lt _ hlt
  unfold routingStage
  rw [if_pos hmodel]
  simp only [hms, Option.getD_some, hidx, Option.some_bind, hextract]
  constructor
  · unfold routeWithContext
    simp [selectModel]
  · simp [hset]

/-- Router options mirroring the shipped default ceiling and tier tables. -/
def defaultishOptions : RouterOptions :=
  { config :=
      { scoring := testScoring
        tiers := testTiers
        overrides := ⟨100000, .MEDIUM, .MEDIUM⟩ }
    modelPricing := testPricing }

/-- The spec's own directive example request. -/
def directiveCexParsed : ParsedChatRequest :=
  { model := "clawzenmux/auto"
    stream := true
    maxCompletionTokens := none
    maxTokens := none
    messages := some
      [⟨"user", some (.str "USE COMPLEX Design a distributed message queue architecture")⟩]
    responseFormatIsObject := false }

/-- Counterexample to C1 as stated: on the spec's own example the pipeline
forwards the TRIMMED text "Design a distributed message queue architecture",
which is not byte-identical to the original minus the directive substring
(" Design a distributed message queue architecture", leading space kept). -/
theorem routingStage_directive_cex :
    (routingStage directiveCexParsed defaultishOptions).map
        (fun p => p.2.map fun m => extractText m.content) =
      some ["Design a distributed message queue architecture"] ∧
    removeDirectiveSubstringOnly
        "USE COMPLEX Design a distributed message queue architecture" =
      " Design a distributed message queue architecture" ∧
    ("Design a distributed message queue architecture" : String) ≠
      " Design a distributed message queue architecture" :=
  ⟨by decide, by decide, by decide⟩

/-- A directive-bearing request used to witness the amended C1. -/
def directiveWitnessParsed : ParsedChatRequest :=
  { model := "auto"
    stream := false
    maxCompletionTokens := none
    maxTokens := some 1024
    messages := some
      [⟨"system", some (.str "You are helpful.")⟩,
       ⟨"user", some (.str "USE REASONING prove that 2 is prime")⟩]
    responseFormatIsObject := false }

/-- Witness for the amended C1 at a concrete directive-bearing request. -/
theorem routingStage_directive_witness :
    ((directiveWitnessParsed.model = AUTO_MODEL ∨
        directiveWitnessParsed.model = AUTO_MODEL_SHORT) ∧
      directiveWitnessParsed.messages = some
        [⟨"system", some (.str "You are helpful.")⟩,
         ⟨"user", some (.str "USE REASONING prove that 2 is prime")⟩] ∧
      lastUserIdx
        [⟨"system", some (.str "You are helpful.")⟩,
         ⟨"user", some (.str "USE REASONING prove that 2 is prime")⟩] = some 1 ∧
      parseForcedTier "USE REASONING prove that 2 is prime" = some .REASONING) ∧
    ((routingStage directiveWitnessParsed defaultishOptions).map (fun p => p.1.tier) =
        some Tier.REASONING ∧
      (routingStage directiveWitnessParsed defaultishOptions).map (fun p => p.2[1]?) =
        some (some ⟨"user", some (.str (stripForcedTierDirective
          "USE REASONING prove that 2 is prime"))⟩)) :=
  ⟨⟨Or.inr rfl, rfl, by decide, by decide⟩,
   routingStage_directive directiveWitnessParsed defaultishOptions
     [⟨"system", some (.str "You are helpful.")⟩,
      ⟨"user", some (.str "USE REASONING prove that 2 is prime")⟩]
     1 ⟨"user", some (.str "USE REASONING prove that 2 is prime")⟩
     "USE REASONING prove that 2 is prime" .REASONING
     (Or.inr rfl) rfl (by decide) (by decide) rfl (by decide)⟩

end ClawZenMux
